import Mathlib

/-!
Shallow embedding of the `gs-ppe` Rust crate (Groth–Sahai proofs for pairing
product equations, SXDH instantiation) and verification of its specification.

Modelling conventions, applied uniformly:

* The bilinear-group collaborator (`E : Pairing` in the source) becomes a scalar
  commutative ring `F`, additive commutative groups `G₁`, `G₂`, `GT` that are
  `F`-modules, and an arbitrary function `e : G₁ → G₂ → GT` for the pairing;
  theorems that need bilinearity take an `IsPairing F e` hypothesis.
* Rust functions that draw from an RNG (`Matrix::rand`, `Randomness::rand`,
  the `z` matrix of `Prove`/`RdProof`, the fresh pair of `Com::randomize`)
  are embedded with the drawn values as explicit parameters, so theorems
  quantify over every possible draw.
* A Rust iterator fold that accumulates `+` starting from `zero` over a vector
  `l` is rendered as the indexed sum `∑ i in Finset.range l.length, …` of the
  corresponding entries (`List.getD` with a default that is never reached at
  the in-range indices the source touches); a fold over `l1.zip(l2)` sums over
  `Finset.range (min l1.length l2.length)`.
* `ndarray::ArrayBase::append` returns a shape error when the lengths along
  the non-append axis differ, and the source unwraps it; the corresponding
  `Matrix.append0`/`Matrix.append1` return `Option`, `none` standing for the
  panic, and this is propagated through `Equation.add`/`ProofSystem.add`.
* In-place mutation (`Com::randomize`, `Proof::randomize`,
  `ProofSystem::randomize`) is embedded by returning the updated value.
-/

namespace GsPpe

/-- Model of `Matrix<F>` (src/src/matrix.rs), a wrapper around
`ndarray::Array2`: an explicit shape `(rows, cols)` together with the
row-major entries. -/
structure Matrix (α : Type) where
  rows : Nat
  cols : Nat
  data : List (List α)
deriving DecidableEq

/-- Model of `Matrix::dim` (src/src/matrix.rs): the stored shape. -/
def Matrix.dim {α : Type} (mt : Matrix α) : Nat × Nat :=
  (mt.rows, mt.cols)

/-- Model of `Matrix`'s `Index<(usize, usize)>` (src/src/matrix.rs). The
source panics out of range; the embedding returns `0` there, a value the
in-range uses of the source never see. -/
def Matrix.get {α : Type} [Zero α] (mt : Matrix α) (i j : Nat) : α :=
  (mt.data.getD i []).getD j 0

/-- Model of `Matrix::new(&[[a, b], [c, d]])`, the only literal-rows
constructor shape the core uses (src/src/prove.rs). -/
def Matrix.new22 {α : Type} (a b c d : α) : Matrix α :=
  ⟨2, 2, [[a, b], [c, d]]⟩

/-- Model of `Matrix::from_elem` (src/src/matrix.rs). -/
def Matrix.from_elem {α : Type} (r c : Nat) (x : α) : Matrix α :=
  ⟨r, c, List.replicate r (List.replicate c x)⟩

/-- Model of `Matrix::zeros_column` (src/src/matrix.rs): zero rows, `n`
columns. -/
def Matrix.zeros_column {α : Type} (n : Nat) : Matrix α :=
  ⟨0, n, []⟩

/-- Model of `Matrix`'s `Add` impl (src/src/matrix.rs), which delegates to
`ndarray` elementwise addition; the core only adds matrices of identical
shape (2×2), where `zipWith` agrees with it. -/
def Matrix.add {α : Type} [Add α] (mt kt : Matrix α) : Matrix α :=
  ⟨mt.rows, mt.cols,
    List.zipWith (fun row1 row2 => List.zipWith (fun p q => p + q) row1 row2)
      mt.data kt.data⟩

/-- Model of `ndarray::ArrayBase::append(Axis(1), …)` followed by the
source's `.unwrap()`: appending columns requires equal row counts, and the
source panics (here: `none`) otherwise. -/
def Matrix.append1 {α : Type} (mt kt : Matrix α) : Option (Matrix α) :=
  if mt.rows = kt.rows then
    some ⟨mt.rows, mt.cols + kt.cols,
      List.zipWith (fun row1 row2 => row1 ++ row2) mt.data kt.data⟩
  else none

/-- Model of `ndarray::ArrayBase::append(Axis(0), …)` followed by the
source's `.unwrap()`: appending rows requires equal column counts, and the
source panics (here: `none`) otherwise. -/
def Matrix.append0 {α : Type} (mt kt : Matrix α) : Option (Matrix α) :=
  if mt.cols = kt.cols then
    some ⟨mt.rows + kt.rows, mt.cols, mt.data ++ kt.data⟩
  else none

/-- Model of `Randomness<G>` (src/src/randomness.rs): the scalar pair
`(r_1, r_2)`; the phantom group tag of the source is dropped. -/
structure Randomness (F : Type) where
  r1 : F
  r2 : F
deriving DecidableEq

/-- Model of `Randomness::zero` (src/src/randomness.rs). -/
def Randomness.zero {F : Type} [Zero F] : Randomness F :=
  ⟨0, 0⟩

/-- Model of `Variable<G>` (src/src/variable.rs): a witness group element
together with its commitment randomness. -/
structure Variable (F G : Type) where
  value : G
  rand : Randomness F
deriving DecidableEq

/-- Model of `Variable::with_randomness` (src/src/variable.rs). -/
def Variable.with_randomness {F G : Type} (value : G) (rand : Randomness F) :
    Variable F G :=
  ⟨value, rand⟩

/-- Model of `Variable::with_zero_randomness` (src/src/variable.rs). -/
def Variable.with_zero_randomness {F G : Type} [Zero F] (value : G) :
    Variable F G :=
  Variable.with_randomness value Randomness.zero

/-- Model of `Com<G>` (src/src/com.rs): a two-element commitment. -/
structure Com (G : Type) where
  c1 : G
  c2 : G
deriving DecidableEq

/-- Zero commitment, used as the never-reached `List.getD` default. -/
def comZero {G : Type} [Zero G] : Com G :=
  ⟨0, 0⟩

/-- Zero variable, used as the never-reached `List.getD` default. -/
def varZero {F G : Type} [Zero F] [Zero G] : Variable F G :=
  ⟨0, Randomness.zero⟩

/-- Model of `CommitmentKey<G>` (src/src/commit.rs): the two pairs
`((u_11, u_12), (u_21, u_22))`; Rust's tuple fields `.0`/`.1` become
`.1`/`.2` of `Prod`. -/
structure CommitmentKey (G : Type) where
  u1 : G × G
  u2 : G × G
deriving DecidableEq

/-- Model of `CommitmentKeys<E>` (src/src/commit.rs). -/
structure CommitmentKeys (G₁ G₂ : Type) where
  u : CommitmentKey G₁
  v : CommitmentKey G₂
deriving DecidableEq

/-- Model of `ExtractKey<E>` (src/src/extract.rs): the trapdoor pair
`(α_1, α_2)`. -/
structure ExtractKey (F : Type) where
  a1 : F
  a2 : F
deriving DecidableEq

section Scheme

variable {F G₁ G₂ GT : Type}
variable [CommRing F]
variable [AddCommGroup G₁] [AddCommGroup G₂] [AddCommGroup GT]
variable [Module F G₁] [Module F G₂] [Module F GT]

/-- Model of `CommitmentKey::commit` (src/src/commit.rs):
`Com(ck, x, r) = (r_1·u_11 + r_2·u_21, x + r_1·u_12 + r_2·u_22)`. -/
def CommitmentKey.commit {G : Type} [AddCommGroup G] [Module F G]
    (ck : CommitmentKey G) (x : Variable F G) : Com G :=
  let a := x.rand.r1 • ck.u1.1 + x.rand.r2 • ck.u2.1
  let b := x.rand.r1 • ck.u1.2 + x.rand.r2 • ck.u2.2
  ⟨a, x.value + b⟩

/-- Model of `CommitmentKeys::new` (src/src/commit.rs), the binding `Setup`:
`u_1 = (g1, a1·g1)`, `u_2 = (t1·g1, t1·(a1·g1))`, analogously for `v`. The
entry points `setup`/`rand` draw the four scalars at random and call this. -/
def CommitmentKeys.new (g1 : G₁) (g2 : G₂) (a1 a2 t1 t2 : F) :
    CommitmentKeys G₁ G₂ :=
  let u1 : G₁ × G₁ := (g1, a1 • g1)
  let u2 : G₁ × G₁ := (t1 • g1, t1 • u1.2)
  let v1 : G₂ × G₂ := (g2, a2 • g2)
  let v2 : G₂ × G₂ := (t2 • g2, t2 • v1.2)
  ⟨⟨u1, u2⟩, ⟨v1, v2⟩⟩

/-- Model of `CommitmentKeys::new_wi` (src/src/commit.rs), the perfectly
hiding `WISetup`: `u_2 = (t1·g1, (a1·t1 − 1)·g1)`, analogously for `v`. The
entry points `setup_wi`/`rand_wi` draw the scalars and call this. -/
def CommitmentKeys.new_wi (g1 : G₁) (g2 : G₂) (a1 a2 t1 t2 : F) :
    CommitmentKeys G₁ G₂ :=
  let u1 : G₁ × G₁ := (g1, a1 • g1)
  let u2 : G₁ × G₁ := (t1 • g1, (a1 * t1 - 1) • g1)
  let v1 : G₂ × G₂ := (g2, a2 • g2)
  let v2 : G₂ × G₂ := (t2 • g2, (a2 * t2 - 1) • g2)
  ⟨⟨u1, u2⟩, ⟨v1, v2⟩⟩

/-- Model of `CommitmentKeys::setup` (src/src/commit.rs) with the four
sampled scalars explicit. -/
def CommitmentKeys.setup (g1 : G₁) (g2 : G₂) (a1 a2 t1 t2 : F) :
    CommitmentKeys G₁ G₂ :=
  CommitmentKeys.new g1 g2 a1 a2 t1 t2

/-- Model of `CommitmentKeys::setup_ex` (src/src/commit.rs) with the four
sampled scalars explicit: the binding keys plus the extract key `(a1, a2)`. -/
def CommitmentKeys.setup_ex (g1 : G₁) (g2 : G₂) (a1 a2 t1 t2 : F) :
    CommitmentKeys G₁ G₂ × ExtractKey F :=
  (CommitmentKeys.new g1 g2 a1 a2 t1 t2, ⟨a1, a2⟩)

/-- Model of `CommitmentKeys::setup_wi` (src/src/commit.rs) with the four
sampled scalars explicit. -/
def CommitmentKeys.setup_wi (g1 : G₁) (g2 : G₂) (a1 a2 t1 t2 : F) :
    CommitmentKeys G₁ G₂ :=
  CommitmentKeys.new_wi g1 g2 a1 a2 t1 t2

/-- Model of `ExtractKey::extract_1` (src/src/extract.rs):
`Extr(ek, c) = (−α_1)·c_1 + c_2`. -/
def ExtractKey.extract_1 (ek : ExtractKey F) (c : Com G₁) : G₁ :=
  (-ek.a1) • c.c1 + c.c2

/-- Model of `ExtractKey::extract_2` (src/src/extract.rs). -/
def ExtractKey.extract_2 (ek : ExtractKey F) (c : Com G₂) : G₂ :=
  (-ek.a2) • c.c1 + c.c2

/-- Model of `Com::randomize` (src/src/com.rs) with the fresh pair `r`
explicit: returns the updated commitment (the source mutates the receiver)
together with the pre-update commitment paired with the fresh randomness. -/
def Com.randomize {G : Type} [AddCommGroup G] [Module F G]
    (c : Com G) (ck : CommitmentKey G) (r : Randomness F) :
    Com G × (Com G × Randomness F) :=
  let a := r.r1 • ck.u1.1 + r.r2 • ck.u2.1
  let b := r.r1 • ck.u1.2 + r.r2 • ck.u2.2
  (⟨c.c1 + a, c.c2 + b⟩, (c, r))

end Scheme

/-- Model of `Equation<E>` (src/src/equation.rs): the PPE constants
`(a, b, γ, T)`. -/
structure Equation (F G₁ G₂ GT : Type) where
  a : List G₁
  b : List G₂
  gamma : Matrix F
  target : GT
deriving DecidableEq

/-- Model of `Proof<E>` (src/src/prove.rs): the pair `(φ, θ)` of 2×2
matrices over `G₂` and `G₁`. -/
structure Proof (G₁ G₂ : Type) where
  phi : Matrix G₂
  theta : Matrix G₁
deriving DecidableEq

/-- Model of `ProofSystem<E>` (src/src/lib.rs). -/
structure ProofSystem (F G₁ G₂ GT : Type) where
  equation : Equation F G₁ G₂ GT
  c : List (Com G₁)
  d : List (Com G₂)
  proof : Proof G₁ G₂
deriving DecidableEq

section Scheme2

variable {F G₁ G₂ GT : Type}
variable [CommRing F]
variable [AddCommGroup G₁] [AddCommGroup G₂] [AddCommGroup GT]
variable [Module F G₁] [Module F G₂] [Module F GT]

/-- Model of the helper `t11_t12_t21_t22` (src/src/prove.rs), the four
cross scalars `t_pq = Σ_{i,j} γ_ij · r_{i,p} · s_{j,q}`. -/
def t11_t12_t21_t22 (r s : List (Randomness F)) (gamma : Matrix F) :
    F × F × F × F :=
  (∑ i in Finset.range r.length, ∑ j in Finset.range s.length,
      gamma.get i j * (r.getD i Randomness.zero).r1 * (s.getD j Randomness.zero).r1,
   ∑ i in Finset.range r.length, ∑ j in Finset.range s.length,
      gamma.get i j * (r.getD i Randomness.zero).r1 * (s.getD j Randomness.zero).r2,
   ∑ i in Finset.range r.length, ∑ j in Finset.range s.length,
      gamma.get i j * (r.getD i Randomness.zero).r2 * (s.getD j Randomness.zero).r1,
   ∑ i in Finset.range r.length, ∑ j in Finset.range s.length,
      gamma.get i j * (r.getD i Randomness.zero).r2 * (s.getD j Randomness.zero).r2)

/-- Model of the helper `z_u` (src/src/prove.rs), the matrix `Z ⊗ u`. -/
def z_u (z : Matrix F) (u : CommitmentKey G₁) : Matrix G₁ :=
  Matrix.new22
    (z.get 0 0 • u.u1.1 + z.get 0 1 • u.u2.1)
    (z.get 0 0 • u.u1.2 + z.get 0 1 • u.u2.2)
    (z.get 1 0 • u.u1.1 + z.get 1 1 • u.u2.1)
    (z.get 1 0 • u.u1.2 + z.get 1 1 • u.u2.2)

/-- Model of the helper `z_v` (src/src/prove.rs), the transposed negated
matrix `Z ⊗ v`. -/
def z_v (z : Matrix F) (v : CommitmentKey G₂) : Matrix G₂ :=
  Matrix.new22
    ((-z.get 0 0) • v.u1.1 + (-z.get 1 0) • v.u2.1)
    ((-z.get 0 0) • v.u1.2 + (-z.get 1 0) • v.u2.2)
    ((-z.get 0 1) • v.u1.1 + (-z.get 1 1) • v.u2.1)
    ((-z.get 0 1) • v.u1.2 + (-z.get 1 1) • v.u2.2)

/-- Model of `Proof::new`, the `Prove` function (src/src/prove.rs), with the
internal random 2×2 matrix `z` as an explicit parameter. The source asserts
`a.len() == y.len()` and `b.len() == x.len()`; the claims about `Prove` only
concern inputs satisfying these preconditions, where the embedding and the
source agree. -/
def Proof.new (z : Matrix F) (cks : CommitmentKeys G₁ G₂)
    (equ : Equation F G₁ G₂ GT) (x : List (Variable F G₁))
    (y : List (Variable F G₂)) : Proof G₁ G₂ :=
  let zu := z_u z cks.u
  let zv := z_v z cks.v
  let t := t11_t12_t21_t22 (x.map Variable.rand) (y.map Variable.rand) equ.gamma
  let t11 := t.1
  let t12 := t.2.1
  let t21 := t.2.2.1
  let t22 := t.2.2.2
  let phi11 := t11 • cks.v.u1.1 + t12 • cks.v.u2.1
  let phi12 :=
    let b_product := ∑ i in Finset.range (min equ.b.length x.length),
      (x.getD i varZero).rand.r1 • equ.b.getD i 0
    let y_product := ∑ j in Finset.range y.length,
      (∑ i in Finset.range x.length,
        equ.gamma.get i j * (x.getD i varZero).rand.r1) • (y.getD j varZero).value
    t11 • cks.v.u1.2 + t12 • cks.v.u2.2 + b_product + y_product
  let phi21 := t21 • cks.v.u1.1 + t22 • cks.v.u2.1
  let phi22 :=
    let b_product := ∑ i in Finset.range (min equ.b.length x.length),
      (x.getD i varZero).rand.r2 • equ.b.getD i 0
    let y_product := ∑ j in Finset.range y.length,
      (∑ i in Finset.range x.length,
        equ.gamma.get i j * (x.getD i varZero).rand.r2) • (y.getD j varZero).value
    t21 • cks.v.u1.2 + t22 • cks.v.u2.2 + b_product + y_product
  let phi := Matrix.add (Matrix.new22 phi11 phi12 phi21 phi22) zv
  let theta11 : G₁ := 0
  let theta12 :=
    let a_product := ∑ j in Finset.range (min equ.a.length y.length),
      (y.getD j varZero).rand.r1 • equ.a.getD j 0
    let x_product := ∑ i in Finset.range x.length,
      (∑ j in Finset.range y.length,
        equ.gamma.get i j * (y.getD j varZero).rand.r1) • (x.getD i varZero).value
    a_product + x_product
  let theta21 : G₁ := 0
  let theta22 :=
    let a_product := ∑ j in Finset.range (min equ.a.length y.length),
      (y.getD j varZero).rand.r2 • equ.a.getD j 0
    let x_product := ∑ i in Finset.range x.length,
      (∑ j in Finset.range y.length,
        equ.gamma.get i j * (y.getD j varZero).rand.r2) • (x.getD i varZero).value
    a_product + x_product
  let theta := Matrix.add (Matrix.new22 theta11 theta12 theta21 theta22) zu
  ⟨phi, theta⟩

/-- The dimension gate of `Equation::verify` (src/src/equation.rs), stated
positively: the source returns `false` when any part fails. -/
def Equation.dimOk (equ : Equation F G₁ G₂ GT) (c : List (Com G₁))
    (d : List (Com G₂)) (pf : Proof G₁ G₂) : Prop :=
  equ.a.length = equ.gamma.dim.2 ∧ equ.b.length = equ.gamma.dim.1 ∧
    c.length = equ.gamma.dim.1 ∧ d.length = equ.gamma.dim.2 ∧
    pf.phi.dim = (2, 2) ∧ pf.theta.dim = (2, 2)

instance {equ : Equation F G₁ G₂ GT} {c : List (Com G₁)} {d : List (Com G₂)}
    {pf : Proof G₁ G₂} : Decidable (equ.dimOk c d pf) :=
  inferInstanceAs (Decidable (_ ∧ _))

/-- The pre-computed list `b_d` of `Equation::verify` (src/src/equation.rs):
`b_d[i] = b_i + Σ_j γ_ij·d_{j,2}`. -/
def Equation.bd (equ : Equation F G₁ G₂ GT) (c : List (Com G₁))
    (d : List (Com G₂)) : List G₂ :=
  (List.range c.length).map (fun i =>
    equ.b.getD i 0 +
      ∑ j in Finset.range d.length, equ.gamma.get i j • (d.getD j comZero).c2)

/-- Left side of identity 1 of `Equation::verify`:
`Σ_i e(c_{i,1}, Σ_j γ_ij·d_{j,1})`. -/
def Equation.lhs1 (equ : Equation F G₁ G₂ GT) (e : G₁ → G₂ → GT)
    (c : List (Com G₁)) (d : List (Com G₂)) : GT :=
  ∑ i in Finset.range c.length,
    e (c.getD i comZero).c1
      (∑ j in Finset.range d.length, equ.gamma.get i j • (d.getD j comZero).c1)

/-- Right side of identity 1 of `Equation::verify`:
`e(u_11, φ_00) + e(u_21, φ_10) + e(θ_00, v_11) + e(θ_10, v_21)`. -/
def Equation.rhs1 (_equ : Equation F G₁ G₂ GT) (e : G₁ → G₂ → GT)
    (cks : CommitmentKeys G₁ G₂) (pf : Proof G₁ G₂) : GT :=
  e cks.u.u1.1 (pf.phi.get 0 0) + e cks.u.u2.1 (pf.phi.get 1 0) +
    e (pf.theta.get 0 0) cks.v.u1.1 + e (pf.theta.get 1 0) cks.v.u2.1

/-- Left side of identity 2 of `Equation::verify`:
`Σ_i e(c_{i,1}, b_d[i])`. -/
def Equation.lhs2 (equ : Equation F G₁ G₂ GT) (e : G₁ → G₂ → GT)
    (c : List (Com G₁)) (d : List (Com G₂)) : GT :=
  ∑ i in Finset.range c.length,
    e (c.getD i comZero).c1 ((equ.bd c d).getD i 0)

/-- Right side of identity 2 of `Equation::verify`. -/
def Equation.rhs2 (_equ : Equation F G₁ G₂ GT) (e : G₁ → G₂ → GT)
    (cks : CommitmentKeys G₁ G₂) (pf : Proof G₁ G₂) : GT :=
  e cks.u.u1.1 (pf.phi.get 0 1) + e cks.u.u2.1 (pf.phi.get 1 1) +
    e (pf.theta.get 0 0) cks.v.u1.2 + e (pf.theta.get 1 0) cks.v.u2.2

/-- Left side of identity 3 of `Equation::verify`:
`Σ_j e(a_j + Σ_i γ_ij·c_{i,2}, d_{j,1})`. -/
def Equation.lhs3 (equ : Equation F G₁ G₂ GT) (e : G₁ → G₂ → GT)
    (c : List (Com G₁)) (d : List (Com G₂)) : GT :=
  ∑ j in Finset.range d.length,
    e (equ.a.getD j 0 +
        ∑ i in Finset.range c.length, equ.gamma.get i j • (c.getD i comZero).c2)
      (d.getD j comZero).c1

/-- Right side of identity 3 of `Equation::verify`. -/
def Equation.rhs3 (_equ : Equation F G₁ G₂ GT) (e : G₁ → G₂ → GT)
    (cks : CommitmentKeys G₁ G₂) (pf : Proof G₁ G₂) : GT :=
  e cks.u.u1.2 (pf.phi.get 0 0) + e cks.u.u2.2 (pf.phi.get 1 0) +
    e (pf.theta.get 0 1) cks.v.u1.1 + e (pf.theta.get 1 1) cks.v.u2.1

/-- Left side of identity 4 of `Equation::verify`:
`Σ_j e(a_j, d_{j,2}) + Σ_i e(c_{i,2}, b_d[i])`. -/
def Equation.lhs4 (equ : Equation F G₁ G₂ GT) (e : G₁ → G₂ → GT)
    (c : List (Com G₁)) (d : List (Com G₂)) : GT :=
  (∑ j in Finset.range (min equ.a.length d.length),
    e (equ.a.getD j 0) (d.getD j comZero).c2) +
  ∑ i in Finset.range c.length, e (c.getD i comZero).c2 ((equ.bd c d).getD i 0)

/-- Right side of identity 4 of `Equation::verify`, the only side involving
the target `T`. -/
def Equation.rhs4 (equ : Equation F G₁ G₂ GT) (e : G₁ → G₂ → GT)
    (cks : CommitmentKeys G₁ G₂) (pf : Proof G₁ G₂) : GT :=
  equ.target +
    e cks.u.u1.2 (pf.phi.get 0 1) + e cks.u.u2.2 (pf.phi.get 1 1) +
    e (pf.theta.get 0 1) cks.v.u1.2 + e (pf.theta.get 1 1) cks.v.u2.2

/-- Model of `Equation::verify` (src/src/equation.rs): the dimension gate
followed by the four pairing-product identities, returning `false` at the
first failure; identity 4 is compared with `lhs == rhs`. -/
def Equation.verify [DecidableEq GT] (equ : Equation F G₁ G₂ GT)
    (e : G₁ → G₂ → GT) (cks : CommitmentKeys G₁ G₂)
    (c : List (Com G₁)) (d : List (Com G₂)) (pf : Proof G₁ G₂) : Bool :=
  if ¬ equ.dimOk c d pf then false
  else if equ.lhs1 e c d ≠ equ.rhs1 e cks pf then false
  else if equ.lhs2 e c d ≠ equ.rhs2 e cks pf then false
  else if equ.lhs3 e c d ≠ equ.rhs3 e cks pf then false
  else decide (equ.lhs4 e c d = equ.rhs4 e cks pf)

/-- Model of `impl Add for Equation` (src/src/equation.rs). The source
builds the composed `γ` by appending `zeros((m', n'))` to `γ` along axis 1,
appending `γ'` to `zeros((m, n))` along axis 1, and stacking along axis 0,
unwrapping each `ndarray` append; `none` models the panic of an unwrap. -/
def Equation.add (e1 e2 : Equation F G₁ G₂ GT) :
    Option (Equation F G₁ G₂ GT) :=
  let a := e1.a ++ e2.a
  let b := e1.b ++ e2.b
  let target := e1.target + e2.target
  let mn := e1.gamma.dim
  let mn' := e2.gamma.dim
  let zeros12 : Matrix F := Matrix.from_elem mn'.1 mn'.2 0
  let gamma2 : Matrix F := Matrix.from_elem mn.1 mn.2 0
  do
    let gtop ← Matrix.append1 e1.gamma zeros12
    let gbot ← Matrix.append1 gamma2 e2.gamma
    let g ← Matrix.append0 gtop gbot
    pure ⟨a, b, g, target⟩

/-- Model of `impl Add for Proof` (src/src/prove.rs): entrywise addition of
`φ` and `θ`. -/
def Proof.add (p q : Proof G₁ G₂) : Proof G₁ G₂ :=
  ⟨Matrix.add p.phi q.phi, Matrix.add p.theta q.theta⟩

/-- Model of `Proof::randomize`, the `RdProof` function (src/src/prove.rs),
with the internal random 2×2 matrix `z` explicit; returns the updated proof
(the source mutates the receiver). The source asserts `a.len() == ds.len()`
and `b.len() == cr.len()`; the claims about `RdProof` only concern inputs
satisfying these preconditions, where the embedding and the source agree. -/
def Proof.randomize (z : Matrix F) (cks : CommitmentKeys G₁ G₂)
    (equ : Equation F G₁ G₂ GT) (cr : List (Com G₁ × Randomness F))
    (ds : List (Com G₂ × Randomness F)) (pf : Proof G₁ G₂) : Proof G₁ G₂ :=
  let zu := z_u z cks.u
  let zv := z_v z cks.v
  let c := cr.map Prod.fst
  let d := ds.map Prod.fst
  let r := cr.map Prod.snd
  let s := ds.map Prod.snd
  let t := t11_t12_t21_t22 r s equ.gamma
  let t11 := t.1
  let t12 := t.2.1
  let t21 := t.2.2.1
  let t22 := t.2.2.2
  let phi11 :=
    (∑ j in Finset.range d.length,
      (∑ i in Finset.range r.length,
        equ.gamma.get i j * (r.getD i Randomness.zero).r1) • (d.getD j comZero).c1) +
    (t11 • cks.v.u1.1 + t12 • cks.v.u2.1)
  let phi12 :=
    (∑ i in Finset.range (min equ.b.length r.length),
      (r.getD i Randomness.zero).r1 • equ.b.getD i 0) +
    (∑ j in Finset.range d.length,
      (∑ i in Finset.range r.length,
        equ.gamma.get i j * (r.getD i Randomness.zero).r1) • (d.getD j comZero).c2) +
    (t11 • cks.v.u1.2 + t12 • cks.v.u2.2)
  let phi21 :=
    (∑ j in Finset.range d.length,
      (∑ i in Finset.range r.length,
        equ.gamma.get i j * (r.getD i Randomness.zero).r2) • (d.getD j comZero).c1) +
    (t21 • cks.v.u1.1 + t22 • cks.v.u2.1)
  let phi22 :=
    (∑ i in Finset.range (min equ.b.length r.length),
      (r.getD i Randomness.zero).r2 • equ.b.getD i 0) +
    (∑ j in Finset.range d.length,
      (∑ i in Finset.range r.length,
        equ.gamma.get i j * (r.getD i Randomness.zero).r2) • (d.getD j comZero).c2) +
    (t21 • cks.v.u1.2 + t22 • cks.v.u2.2)
  let newPhi := Matrix.add (Matrix.add pf.phi (Matrix.new22 phi11 phi12 phi21 phi22)) zv
  let theta11 := ∑ i in Finset.range c.length,
    (∑ j in Finset.range s.length,
      equ.gamma.get i j * (s.getD j Randomness.zero).r1) • (c.getD i comZero).c1
  let theta12 :=
    (∑ j in Finset.range (min equ.a.length s.length),
      (s.getD j Randomness.zero).r1 • equ.a.getD j 0) +
    ∑ i in Finset.range c.length,
      (∑ j in Finset.range s.length,
        equ.gamma.get i j * (s.getD j Randomness.zero).r1) • (c.getD i comZero).c2
  let theta21 := ∑ i in Finset.range c.length,
    (∑ j in Finset.range s.length,
      equ.gamma.get i j * (s.getD j Randomness.zero).r2) • (c.getD i comZero).c1
  let theta22 :=
    (∑ j in Finset.range (min equ.a.length s.length),
      (s.getD j Randomness.zero).r2 • equ.a.getD j 0) +
    ∑ i in Finset.range c.length,
      (∑ j in Finset.range s.length,
        equ.gamma.get i j * (s.getD j Randomness.zero).r2) • (c.getD i comZero).c2
  let newTheta := Matrix.add (Matrix.add pf.theta (Matrix.new22 theta11 theta12 theta21 theta22)) zu
  ⟨newPhi, newTheta⟩

/-- Model of the top-level `setup` (src/src/lib.rs), with the internal
random 2×2 matrix `z` consumed by `Prove` explicit. The source asserts
`gamma.dim() == (xb.len(), ay.len())`; the claims about `setup` carry that
precondition. -/
def setup (e : G₁ → G₂ → GT) (cks : CommitmentKeys G₁ G₂)
    (ay : List (G₁ × Variable F G₂)) (xb : List (Variable F G₁ × G₂))
    (gamma : Matrix F) (z : Matrix F) : ProofSystem F G₁ G₂ GT :=
  let ay_product := ∑ j in Finset.range ay.length,
    e (ay.getD j (0, varZero)).1 (ay.getD j (0, varZero)).2.value
  let xb_product := ∑ i in Finset.range xb.length,
    e (xb.getD i (varZero, 0)).1.value (xb.getD i (varZero, 0)).2
  let x := xb.map Prod.fst
  let y := ay.map Prod.snd
  let xy_product := ∑ j in Finset.range y.length, ∑ i in Finset.range x.length,
    gamma.get i j • e (x.getD i varZero).value (y.getD j varZero).value
  let target := ay_product + xb_product + xy_product
  let a := ay.map Prod.fst
  let b := xb.map Prod.snd
  let equation : Equation F G₁ G₂ GT := ⟨a, b, gamma, target⟩
  let c := x.map (fun xi => cks.u.commit xi)
  let d := y.map (fun yi => cks.v.commit yi)
  let proof := Proof.new z cks equation x y
  ⟨equation, c, d, proof⟩

/-- Model of `ProofSystem::randomize` (src/src/lib.rs), with the fresh
randomness of every `Com::randomize` call (`rs` for `c`, `ss` for `d`) and
the fresh `z` of `RdProof` explicit. -/
def ProofSystem.randomize (ps : ProofSystem F G₁ G₂ GT)
    (cks : CommitmentKeys G₁ G₂) (rs ss : List (Randomness F))
    (z : Matrix F) : ProofSystem F G₁ G₂ GT :=
  let cres := List.zipWith (fun ci ri => Com.randomize ci cks.u ri) ps.c rs
  let dres := List.zipWith (fun dj sj => Com.randomize dj cks.v sj) ps.d ss
  let cNew := cres.map Prod.fst
  let dNew := dres.map Prod.fst
  let cr := cres.map Prod.snd
  let ds := dres.map Prod.snd
  let pf := Proof.randomize z cks ps.equation cr ds ps.proof
  ⟨ps.equation, cNew, dNew, pf⟩

/-- Model of `impl Add for ProofSystem` (src/src/lib.rs): concatenate the
commitments, add the equations (which may panic, modelled by `none`), add
the proofs. -/
def ProofSystem.add (p q : ProofSystem F G₁ G₂ GT) :
    Option (ProofSystem F G₁ G₂ GT) :=
  (Equation.add p.equation q.equation).map
    (fun equ => ⟨equ, p.c ++ q.c, p.d ++ q.d, Proof.add p.proof q.proof⟩)

end Scheme2

/-- Rectangularity invariant every `ndarray::Array2` value satisfies by
construction: the stored shape describes the data. Values of the `Matrix`
model that violate it do not correspond to any Rust value, so theorems
about untrusted matrices assume it. -/
def Matrix.WF {α : Type} (mt : Matrix α) : Prop :=
  mt.data.length = mt.rows ∧ ∀ row ∈ mt.data, row.length = mt.cols

instance {α : Type} [DecidableEq α] {mt : Matrix α} : Decidable mt.WF :=
  inferInstanceAs (Decidable (_ ∧ _))

/-- Concrete pairing over `ZMod 5` (field multiplication), used to
instantiate the generic theorems on explicit inputs. -/
def zmul : ZMod 5 → ZMod 5 → ZMod 5 :=
  fun x y => x * y

/-- Concrete commitment keys over `ZMod 5`. -/
def exCks : CommitmentKeys (ZMod 5) (ZMod 5) :=
  CommitmentKeys.new (2 : ZMod 5) (3 : ZMod 5) (1 : ZMod 5) 2 3 4

/-- Concrete one-entry `ay` input. -/
def exAy : List (ZMod 5 × Variable (ZMod 5) (ZMod 5)) :=
  [(1, ⟨2, ⟨1, 2⟩⟩)]

/-- Concrete one-entry `xb` input. -/
def exXb : List (Variable (ZMod 5) (ZMod 5) × ZMod 5) :=
  [(⟨3, ⟨2, 1⟩⟩, 4)]

/-- Concrete internal randomness for `Prove`. -/
def exZ : Matrix (ZMod 5) :=
  ⟨2, 2, [[1, 2], [3, 4]]⟩

/-- Concrete proof system with `m = 0` (no x-variables, `γ` of shape
`(0, 1)`). -/
def exPsM0 : ProofSystem (ZMod 5) (ZMod 5) (ZMod 5) (ZMod 5) :=
  setup zmul exCks exAy [] ⟨0, 1, []⟩ exZ

/-- Concrete proof system with `n = 0` (no y-variables, `γ` of shape
`(1, 0)`). -/
def exPsN0 : ProofSystem (ZMod 5) (ZMod 5) (ZMod 5) (ZMod 5) :=
  setup zmul exCks [] exXb ⟨1, 0, [[]]⟩ exZ

/-- Bilinearity of the pairing, the properties of `E::pairing` the
correctness arguments use. -/
structure IsPairing (F : Type) {G₁ G₂ GT : Type} [CommRing F]
    [AddCommGroup G₁] [AddCommGroup G₂] [AddCommGroup GT]
    [Module F G₁] [Module F G₂] [Module F GT] (e : G₁ → G₂ → GT) : Prop where
  add_left : ∀ x x2 y, e (x + x2) y = e x y + e x2 y
  add_right : ∀ x y y2, e x (y + y2) = e x y + e x y2
  smul_left : ∀ (s : F) x y, e (s • x) y = s • e x y
  smul_right : ∀ (s : F) x y, e x (s • y) = s • e x y

section Toolkit

variable {F G₁ G₂ GT : Type}
variable [CommRing F]
variable [AddCommGroup G₁] [AddCommGroup G₂] [AddCommGroup GT]
variable [Module F G₁] [Module F G₂] [Module F GT]
variable {e : G₁ → G₂ → GT}

theorem IsPairing.zero_left (hp : IsPairing F e) (y : G₂) : e 0 y = 0 := by
  have h := hp.smul_left 0 0 y
  rw [zero_smul, zero_smul] at h
  exact h

theorem IsPairing.zero_right (hp : IsPairing F e) (x : G₁) : e x 0 = 0 := by
  have h := hp.smul_right 0 x 0
  rw [zero_smul, zero_smul] at h
  exact h

theorem IsPairing.sum_left (hp : IsPairing F e) {ι : Type} (s : Finset ι)
    (f : ι → G₁) (y : G₂) : e (∑ i in s, f i) y = ∑ i in s, e (f i) y := by
  classical
  induction s using Finset.induction_on with
  | empty => simp [hp.zero_left]
  | insert h ih => rw [Finset.sum_insert h, hp.add_left, ih, Finset.sum_insert h]

theorem IsPairing.sum_right (hp : IsPairing F e) {ι : Type} (s : Finset ι)
    (f : ι → G₂) (x : G₁) : e x (∑ i in s, f i) = ∑ i in s, e x (f i) := by
  classical
  induction s using Finset.induction_on with
  | empty => simp [hp.zero_right]
  | insert h ih => rw [Finset.sum_insert h, hp.add_right, ih, Finset.sum_insert h]

theorem IsPairing.neg_left (hp : IsPairing F e) (x : G₁) (y : G₂) :
    e (-x) y = -e x y := by
  have h := hp.smul_left (-1) x y
  rw [neg_one_smul, neg_one_smul] at h
  exact h

theorem IsPairing.neg_right (hp : IsPairing F e) (x : G₁) (y : G₂) :
    e x (-y) = -e x y := by
  have h := hp.smul_right (-1) x y
  rw [neg_one_smul, neg_one_smul] at h
  exact h

end Toolkit

theorem getD_map_of_lt {α β : Type} (f : α → β) (l : List α) (i : Nat)
    (h : i < l.length) (dβ : β) (dα : α) :
    (l.map f).getD i dβ = f (l.getD i dα) := by
  rw [List.getD_eq_getElem _ _ (by simpa using h), List.getD_eq_getElem _ _ h]
  simp

theorem getD_range_map_of_lt {β : Type} (f : Nat → β) (k i : Nat) (h : i < k)
    (d : β) : ((List.range k).map f).getD i d = f i := by
  rw [getD_map_of_lt f _ i (by simpa using h) d 0]
  rw [List.getD_eq_getElem _ _ (by simpa using h)]
  simp

theorem getD_zipWith_of_lt {α β γ : Type} (f : α → β → γ) (l1 : List α)
    (l2 : List β) (i : Nat) (h1 : i < l1.length) (h2 : i < l2.length)
    (dγ : γ) (dα : α) (dβ : β) :
    (List.zipWith f l1 l2).getD i dγ = f (l1.getD i dα) (l2.getD i dβ) := by
  rw [List.getD_eq_getElem _ _ (by simp; omega),
    List.getD_eq_getElem _ _ h1, List.getD_eq_getElem _ _ h2]
  simp

section VerifyShape

variable {F G₁ G₂ GT : Type}
variable [CommRing F]
variable [AddCommGroup G₁] [AddCommGroup G₂] [AddCommGroup GT]
variable [Module F G₁] [Module F G₂] [Module F GT]
variable [DecidableEq GT]

theorem verify_true_iff (equ : Equation F G₁ G₂ GT) (e : G₁ → G₂ → GT)
    (cks : CommitmentKeys G₁ G₂) (c : List (Com G₁)) (d : List (Com G₂))
    (pf : Proof G₁ G₂) :
    equ.verify e cks c d pf = true ↔
      equ.dimOk c d pf ∧ equ.lhs1 e c d = equ.rhs1 e cks pf ∧
        equ.lhs2 e c d = equ.rhs2 e cks pf ∧
        equ.lhs3 e c d = equ.rhs3 e cks pf ∧
        equ.lhs4 e c d = equ.rhs4 e cks pf := by
  unfold Equation.verify
  split_ifs with h0 h1 h2 h3 <;> simp_all

/-- C6: `Equation::verify` accepts exactly when the dimension gate passes
and all four pairing-product identities hold, each compared with
`lhs == rhs` (in particular identity 4 is not inverted), and it is the
conjunction of the five checks, returning `false` as soon as one fails. -/
theorem claim_C6_verify_is_conjunction_of_identities
    (equ : Equation F G₁ G₂ GT) (e : G₁ → G₂ → GT)
    (cks : CommitmentKeys G₁ G₂) (c : List (Com G₁)) (d : List (Com G₂))
    (pf : Proof G₁ G₂) :
    equ.verify e cks c d pf =
      (decide (equ.dimOk c d pf) &&
        decide (equ.lhs1 e c d = equ.rhs1 e cks pf) &&
        decide (equ.lhs2 e c d = equ.rhs2 e cks pf) &&
        decide (equ.lhs3 e c d = equ.rhs3 e cks pf) &&
        decide (equ.lhs4 e c d = equ.rhs4 e cks pf)) := by
  unfold Equation.verify
  split_ifs with h0 h1 h2 h3 <;> simp_all

/-- C7: on any input failing the dimension checks — wrong `|a|`, `|b|`,
`|c|`, `|d|`, or a `φ`/`θ` that is not 2×2 — `Equation::verify` returns
`false` from the guard, before any element of the inputs is accessed. -/
theorem claim_C7_dimension_guard_rejects
    (equ : Equation F G₁ G₂ GT) (e : G₁ → G₂ → GT)
    (cks : CommitmentKeys G₁ G₂) (c : List (Com G₁)) (d : List (Com G₂))
    (pf : Proof G₁ G₂)
    (h : equ.a.length ≠ equ.gamma.dim.2 ∨ equ.b.length ≠ equ.gamma.dim.1 ∨
      c.length ≠ equ.gamma.dim.1 ∨ d.length ≠ equ.gamma.dim.2 ∨
      pf.phi.dim ≠ (2, 2) ∨ pf.theta.dim ≠ (2, 2)) :
    equ.verify e cks c d pf = false := by
  have hnot : ¬ equ.dimOk c d pf := by
    rintro ⟨ha, hb, hc, hd2, hphi, hth⟩
    rcases h with h | h | h | h | h | h <;> contradiction
  unfold Equation.verify
  rw [if_pos hnot]

/-- Witness for C7 at a concrete ill-dimensioned input: a 1×1 `γ` with
empty `a`. -/
theorem claim_C7_witness :
    (⟨[], [], ⟨1, 1, [[0]]⟩, (0 : ZMod 5)⟩ : Equation (ZMod 5) (ZMod 5) (ZMod 5) (ZMod 5)).verify
      (fun x y => x * y) ⟨⟨(0, 0), (0, 0)⟩, ⟨(0, 0), (0, 0)⟩⟩ [] []
      ⟨⟨2, 2, [[0, 0], [0, 0]]⟩, ⟨2, 2, [[0, 0], [0, 0]]⟩⟩ = false := by
  apply claim_C7_dimension_guard_rejects
  left
  decide

end VerifyShape

section EasyClaims

variable {F G₁ G₂ GT : Type}
variable [CommRing F]
variable [AddCommGroup G₁] [AddCommGroup G₂] [AddCommGroup GT]
variable [Module F G₁] [Module F G₂] [Module F GT]

/-- C8: `Com::randomize` with fresh pair `r` updates the receiver to
`(c_1 + r_1·u_11 + r_2·u_21, c_2 + r_1·u_12 + r_2·u_22)` — which is exactly
the addition of `Commit(ck, 0, r)` componentwise — and returns the
pre-update commitment paired with exactly that fresh randomness. -/
theorem claim_C8_com_randomize_spec {G : Type} [AddCommGroup G] [Module F G]
    (c : Com G) (ck : CommitmentKey G) (r : Randomness F) :
    Com.randomize c ck r =
      (⟨c.c1 + (r.r1 • ck.u1.1 + r.r2 • ck.u2.1),
        c.c2 + (r.r1 • ck.u1.2 + r.r2 • ck.u2.2)⟩, (c, r)) ∧
    (Com.randomize c ck r).1.c1 = c.c1 + (ck.commit ⟨0, r⟩).c1 ∧
    (Com.randomize c ck r).1.c2 = c.c2 + (ck.commit ⟨0, r⟩).c2 := by
  refine ⟨rfl, ?_, ?_⟩ <;>
    simp [Com.randomize, CommitmentKey.commit]

/-- C10: committing with zero randomness reveals the value:
`Commit(ck, Variable::with_zero_randomness(x)) = (0, x)`, the second
component being the committed value in the clear. -/
theorem claim_C10_commit_zero_randomness {G : Type} [AddCommGroup G]
    [Module F G] (ck : CommitmentKey G) (x : G) :
    CommitmentKey.commit (F := F) ck (Variable.with_zero_randomness x) =
      ⟨0, x⟩ := by
  simp [CommitmentKey.commit, Variable.with_zero_randomness,
    Variable.with_randomness, Randomness.zero]

/-- C5: extraction correctness — for keys and extract key produced by
`setup_ex` from any generators and scalars, extracting a commitment to any
value under any randomness returns exactly the committed value, in both
groups. -/
theorem claim_C5_extract_correct (g1 : G₁) (g2 : G₂) (a1 a2 t1 t2 : F)
    (x : G₁) (y : G₂) (r1 r2 s1 s2 : F) :
    (CommitmentKeys.setup_ex g1 g2 a1 a2 t1 t2).2.extract_1
      ((CommitmentKeys.setup_ex g1 g2 a1 a2 t1 t2).1.u.commit ⟨x, ⟨r1, r2⟩⟩) = x ∧
    (CommitmentKeys.setup_ex g1 g2 a1 a2 t1 t2).2.extract_2
      ((CommitmentKeys.setup_ex g1 g2 a1 a2 t1 t2).1.v.commit ⟨y, ⟨s1, s2⟩⟩) = y := by
  constructor <;>
  · simp only [CommitmentKeys.setup_ex, CommitmentKeys.new,
      ExtractKey.extract_1, ExtractKey.extract_2, CommitmentKey.commit]
    module

end EasyClaims

theorem isPairing_zmul : IsPairing (ZMod 5) zmul := by
  constructor
  · intro x x2 y
    exact add_mul x x2 y
  · intro x y y2
    exact mul_add x y y2
  · intro s x y
    simp [zmul, smul_eq_mul, mul_assoc]
  · intro s x y
    simp [zmul, smul_eq_mul]
    ring

section AbstractPPE

variable {F G₁ G₂ GT : Type}
variable [CommRing F]
variable [AddCommGroup G₁] [AddCommGroup G₂] [AddCommGroup GT]
variable [Module F G₁] [Module F G₂] [Module F GT]
variable {e : G₁ → G₂ → GT}

theorem ppe_eq1_complete (hp : IsPairing F e) (m n : Nat)
    (γ : Nat → Nat → F) (R1 R2 S1 S2 : Nat → F)
    (c1F : Nat → G₁) (d1F : Nat → G₂)
    (u11 u21 : G₁) (v11 v21 : G₂) (z00 z01 z10 z11 : F)
    (hc1 : ∀ i, i < m → c1F i = R1 i • u11 + R2 i • u21)
    (hd1 : ∀ j, j < n → d1F j = S1 j • v11 + S2 j • v21) :
    ∑ i in Finset.range m, e (c1F i) (∑ j in Finset.range n, γ i j • d1F j) =
      e u11 (((∑ i in Finset.range m, ∑ j in Finset.range n, γ i j * R1 i * S1 j) • v11 +
          (∑ i in Finset.range m, ∑ j in Finset.range n, γ i j * R1 i * S2 j) • v21) +
        ((-z00) • v11 + (-z10) • v21)) +
      e u21 (((∑ i in Finset.range m, ∑ j in Finset.range n, γ i j * R2 i * S1 j) • v11 +
          (∑ i in Finset.range m, ∑ j in Finset.range n, γ i j * R2 i * S2 j) • v21) +
        ((-z01) • v11 + (-z11) • v21)) +
      e (0 + (z00 • u11 + z01 • u21)) v11 +
      e (0 + (z10 • u11 + z11 • u21)) v21 := by
  have hL : (∑ i in Finset.range m, e (c1F i) (∑ j in Finset.range n, γ i j • d1F j)) =
      ∑ i in Finset.range m, ∑ j in Finset.range n,
        ((γ i j * R1 i * S1 j) • e u11 v11 + (γ i j * R1 i * S2 j) • e u11 v21 +
         ((γ i j * R2 i * S1 j) • e u21 v11 + (γ i j * R2 i * S2 j) • e u21 v21)) := by
    refine Finset.sum_congr rfl fun i hi => ?_
    rw [hc1 i (Finset.mem_range.mp hi),
      Finset.sum_congr rfl fun j hj => by rw [hd1 j (Finset.mem_range.mp hj)]]
    rw [hp.add_left, hp.sum_right, hp.sum_right, ← Finset.sum_add_distrib]
    refine Finset.sum_congr rfl fun j hj => ?_
    simp only [hp.smul_left, hp.smul_right, hp.add_right, smul_add, smul_smul]
    module
  rw [hL]
  simp only [hp.add_right, hp.smul_right, hp.add_left, hp.smul_left,
    hp.neg_right, hp.neg_left, zero_add, neg_smul]
  simp only [Finset.sum_smul]
  simp only [Finset.sum_add_distrib]
  abel

theorem ppe_pair_row (hp : IsPairing F e) (n : Nat) (γi : Nat → F)
    (R1i R2i : F) (u11 u21 : G₁) (v12 v22 : G₂) (S1 S2 : Nat → F)
    (BFi : G₂) (YF d2F : Nat → G₂)
    (hd2 : ∀ j, j < n → d2F j = YF j + (S1 j • v12 + S2 j • v22)) :
    e (R1i • u11 + R2i • u21) (BFi + ∑ j in Finset.range n, γi j • d2F j) =
      (R1i • e u11 BFi + ∑ j in Finset.range n,
        ((γi j * R1i) • e u11 (YF j) +
          ((γi j * R1i * S1 j) • e u11 v12 + (γi j * R1i * S2 j) • e u11 v22))) +
      (R2i • e u21 BFi + ∑ j in Finset.range n,
        ((γi j * R2i) • e u21 (YF j) +
          ((γi j * R2i * S1 j) • e u21 v12 + (γi j * R2i * S2 j) • e u21 v22))) := by
  rw [Finset.sum_congr rfl fun j hj => by
    rw [hd2 j (Finset.mem_range.mp hj)]]
  rw [hp.add_left]
  congr 1
  · rw [hp.smul_left, hp.add_right, hp.sum_right, smul_add, Finset.smul_sum]
    congr 1
    refine Finset.sum_congr rfl fun j hj => ?_
    simp only [hp.smul_right, hp.add_right, smul_add, smul_smul]
    module
  · rw [hp.smul_left, hp.add_right, hp.sum_right, smul_add, Finset.smul_sum]
    congr 1
    refine Finset.sum_congr rfl fun j hj => ?_
    simp only [hp.smul_right, hp.add_right, smul_add, smul_smul]
    module

theorem ppe_atom_row (hp : IsPairing F e) (n : Nat) (γi : Nat → F)
    (x : G₁) (v12 v22 : G₂) (S1 S2 : Nat → F) (BFi : G₂) (YF d2F : Nat → G₂)
    (hd2 : ∀ j, j < n → d2F j = YF j + (S1 j • v12 + S2 j • v22)) :
    e x (BFi + ∑ j in Finset.range n, γi j • d2F j) =
      e x BFi + ∑ j in Finset.range n,
        (γi j • e x (YF j) +
          ((γi j * S1 j) • e x v12 + (γi j * S2 j) • e x v22)) := by
  rw [Finset.sum_congr rfl fun j hj => by
    rw [hd2 j (Finset.mem_range.mp hj)]]
  rw [hp.add_right, hp.sum_right]
  congr 1
  refine Finset.sum_congr rfl fun j hj => ?_
  simp only [hp.smul_right, hp.add_right, smul_add, smul_smul]

theorem ppe_pair_col (hp : IsPairing F e) (m : Nat) (γj : Nat → F)
    (S1j S2j : F) (v11 v21 : G₂) (u12 u22 : G₁) (R1 R2 : Nat → F)
    (AFj : G₁) (XF c2F : Nat → G₁)
    (hc2 : ∀ i, i < m → c2F i = XF i + (R1 i • u12 + R2 i • u22)) :
    e (AFj + ∑ i in Finset.range m, γj i • c2F i) (S1j • v11 + S2j • v21) =
      (S1j • e AFj v11 + S2j • e AFj v21) + ∑ i in Finset.range m,
        ((γj i * S1j) • e (XF i) v11 + (γj i * S2j) • e (XF i) v21 +
          ((γj i * R1 i * S1j) • e u12 v11 + (γj i * R1 i * S2j) • e u12 v21 +
            ((γj i * R2 i * S1j) • e u22 v11 + (γj i * R2 i * S2j) • e u22 v21))) := by
  rw [Finset.sum_congr rfl fun i hi => by
    rw [hc2 i (Finset.mem_range.mp hi)]]
  rw [hp.add_left]
  congr 1
  · simp only [hp.add_right, hp.smul_right]
  · rw [hp.sum_left]
    refine Finset.sum_congr rfl fun i hi => ?_
    simp only [hp.smul_left, hp.smul_right, hp.add_left, hp.add_right,
      smul_add, smul_smul]

theorem ppe_eq2_complete (hp : IsPairing F e) (m n : Nat)
    (γ : Nat → Nat → F) (R1 R2 S1 S2 : Nat → F)
    (c1F : Nat → G₁) (d2F bdF BF YF : Nat → G₂)
    (u11 u21 : G₁) (v12 v22 : G₂) (z00 z01 z10 z11 : F)
    (hc1 : ∀ i, i < m → c1F i = R1 i • u11 + R2 i • u21)
    (hd2 : ∀ j, j < n → d2F j = YF j + (S1 j • v12 + S2 j • v22))
    (hbd : ∀ i, i < m → bdF i = BF i + ∑ j in Finset.range n, γ i j • d2F j) :
    ∑ i in Finset.range m, e (c1F i) (bdF i) =
      e u11 (((∑ i in Finset.range m, ∑ j in Finset.range n, γ i j * R1 i * S1 j) • v12 +
          (∑ i in Finset.range m, ∑ j in Finset.range n, γ i j * R1 i * S2 j) • v22 +
          (∑ i in Finset.range m, R1 i • BF i) +
          (∑ j in Finset.range n, (∑ i in Finset.range m, γ i j * R1 i) • YF j)) +
        ((-z00) • v12 + (-z10) • v22)) +
      e u21 (((∑ i in Finset.range m, ∑ j in Finset.range n, γ i j * R2 i * S1 j) • v12 +
          (∑ i in Finset.range m, ∑ j in Finset.range n, γ i j * R2 i * S2 j) • v22 +
          (∑ i in Finset.range m, R2 i • BF i) +
          (∑ j in Finset.range n, (∑ i in Finset.range m, γ i j * R2 i) • YF j)) +
        ((-z01) • v12 + (-z11) • v22)) +
      e (0 + (z00 • u11 + z01 • u21)) v12 +
      e (0 + (z10 • u11 + z11 • u21)) v22 := by
  have hL : (∑ i in Finset.range m, e (c1F i) (bdF i)) =
      ∑ i in Finset.range m,
        ((R1 i • e u11 (BF i) + ∑ j in Finset.range n,
          ((γ i j * R1 i) • e u11 (YF j) +
            ((γ i j * R1 i * S1 j) • e u11 v12 + (γ i j * R1 i * S2 j) • e u11 v22))) +
         (R2 i • e u21 (BF i) + ∑ j in Finset.range n,
          ((γ i j * R2 i) • e u21 (YF j) +
            ((γ i j * R2 i * S1 j) • e u21 v12 + (γ i j * R2 i * S2 j) • e u21 v22)))) := by
    refine Finset.sum_congr rfl fun i hi => ?_
    rw [hc1 i (Finset.mem_range.mp hi), hbd i (Finset.mem_range.mp hi)]
    exact ppe_pair_row hp n (γ i) (R1 i) (R2 i) u11 u21 v12 v22 S1 S2 (BF i) YF d2F hd2
  rw [hL]
  have hsw1 : (∑ j in Finset.range n, ∑ i in Finset.range m,
      (γ i j * R1 i) • e u11 (YF j)) = ∑ i in Finset.range m,
      ∑ j in Finset.range n, (γ i j * R1 i) • e u11 (YF j) := Finset.sum_comm
  have hsw2 : (∑ j in Finset.range n, ∑ i in Finset.range m,
      (γ i j * R2 i) • e u21 (YF j)) = ∑ i in Finset.range m,
      ∑ j in Finset.range n, (γ i j * R2 i) • e u21 (YF j) := Finset.sum_comm
  simp only [hp.add_right, hp.smul_right, hp.add_left, hp.smul_left,
    hp.neg_right, hp.neg_left, hp.sum_right, zero_add, neg_smul]
  simp only [Finset.sum_smul]
  simp only [Finset.sum_add_distrib]
  rw [hsw1, hsw2]
  abel

theorem ppe_eq3_complete (hp : IsPairing F e) (m n : Nat)
    (γ : Nat → Nat → F) (R1 R2 S1 S2 : Nat → F)
    (c2F XF AF : Nat → G₁) (d1F : Nat → G₂)
    (u12 u22 : G₁) (v11 v21 : G₂) (z00 z01 z10 z11 : F)
    (hc2 : ∀ i, i < m → c2F i = XF i + (R1 i • u12 + R2 i • u22))
    (hd1 : ∀ j, j < n → d1F j = S1 j • v11 + S2 j • v21) :
    ∑ j in Finset.range n,
      e (AF j + ∑ i in Finset.range m, γ i j • c2F i) (d1F j) =
      e u12 (((∑ i in Finset.range m, ∑ j in Finset.range n, γ i j * R1 i * S1 j) • v11 +
          (∑ i in Finset.range m, ∑ j in Finset.range n, γ i j * R1 i * S2 j) • v21) +
        ((-z00) • v11 + (-z10) • v21)) +
      e u22 (((∑ i in Finset.range m, ∑ j in Finset.range n, γ i j * R2 i * S1 j) • v11 +
          (∑ i in Finset.range m, ∑ j in Finset.range n, γ i j * R2 i * S2 j) • v21) +
        ((-z01) • v11 + (-z11) • v21)) +
      e ((∑ j in Finset.range n, S1 j • AF j) +
          (∑ i in Finset.range m, (∑ j in Finset.range n, γ i j * S1 j) • XF i) +
          (z00 • u12 + z01 • u22)) v11 +
      e ((∑ j in Finset.range n, S2 j • AF j) +
          (∑ i in Finset.range m, (∑ j in Finset.range n, γ i j * S2 j) • XF i) +
          (z10 • u12 + z11 • u22)) v21 := by
  have hL : (∑ j in Finset.range n,
      e (AF j + ∑ i in Finset.range m, γ i j • c2F i) (d1F j)) =
      ∑ j in Finset.range n,
        ((S1 j • e (AF j) v11 + S2 j • e (AF j) v21) + ∑ i in Finset.range m,
          ((γ i j * S1 j) • e (XF i) v11 + (γ i j * S2 j) • e (XF i) v21 +
            ((γ i j * R1 i * S1 j) • e u12 v11 + (γ i j * R1 i * S2 j) • e u12 v21 +
              ((γ i j * R2 i * S1 j) • e u22 v11 + (γ i j * R2 i * S2 j) • e u22 v21)))) := by
    refine Finset.sum_congr rfl fun j hj => ?_
    rw [hd1 j (Finset.mem_range.mp hj)]
    exact ppe_pair_col hp m (fun i => γ i j) (S1 j) (S2 j) v11 v21 u12 u22
      R1 R2 (AF j) XF c2F hc2
  rw [hL]
  have hswa : (∑ j in Finset.range n, ∑ i in Finset.range m,
      (γ i j * S1 j) • e (XF i) v11) = ∑ i in Finset.range m,
      ∑ j in Finset.range n, (γ i j * S1 j) • e (XF i) v11 := Finset.sum_comm
  have hswb : (∑ j in Finset.range n, ∑ i in Finset.range m,
      (γ i j * S2 j) • e (XF i) v21) = ∑ i in Finset.range m,
      ∑ j in Finset.range n, (γ i j * S2 j) • e (XF i) v21 := Finset.sum_comm
  have hsw1 : (∑ j in Finset.range n, ∑ i in Finset.range m,
      (γ i j * R1 i * S1 j) • e u12 v11) = ∑ i in Finset.range m,
      ∑ j in Finset.range n, (γ i j * R1 i * S1 j) • e u12 v11 := Finset.sum_comm
  have hsw2 : (∑ j in Finset.range n, ∑ i in Finset.range m,
      (γ i j * R1 i * S2 j) • e u12 v21) = ∑ i in Finset.range m,
      ∑ j in Finset.range n, (γ i j * R1 i * S2 j) • e u12 v21 := Finset.sum_comm
  have hsw3 : (∑ j in Finset.range n, ∑ i in Finset.range m,
      (γ i j * R2 i * S1 j) • e u22 v11) = ∑ i in Finset.range m,
      ∑ j in Finset.range n, (γ i j * R2 i * S1 j) • e u22 v11 := Finset.sum_comm
  have hsw4 : (∑ j in Finset.range n, ∑ i in Finset.range m,
      (γ i j * R2 i * S2 j) • e u22 v21) = ∑ i in Finset.range m,
      ∑ j in Finset.range n, (γ i j * R2 i * S2 j) • e u22 v21 := Finset.sum_comm
  simp only [hp.add_right, hp.smul_right, hp.add_left, hp.smul_left,
    hp.neg_right, hp.neg_left, hp.sum_left, zero_add, neg_smul]
  simp only [Finset.sum_smul]
  simp only [Finset.sum_add_distrib]
  rw [hswa, hswb, hsw1, hsw2, hsw3, hsw4]
  abel

theorem ppe_eq4_complete (hp : IsPairing F e) (m n : Nat)
    (γ : Nat → Nat → F) (R1 R2 S1 S2 : Nat → F)
    (c2F XF AF : Nat → G₁) (d2F bdF BF YF : Nat → G₂)
    (u12 u22 : G₁) (v12 v22 : G₂) (z00 z01 z10 z11 : F)
    (hc2 : ∀ i, i < m → c2F i = XF i + (R1 i • u12 + R2 i • u22))
    (hd2 : ∀ j, j < n → d2F j = YF j + (S1 j • v12 + S2 j • v22))
    (hbd : ∀ i, i < m → bdF i = BF i + ∑ j in Finset.range n, γ i j • d2F j) :
    (∑ j in Finset.range n, e (AF j) (d2F j)) +
      ∑ i in Finset.range m, e (c2F i) (bdF i) =
      ((∑ j in Finset.range n, e (AF j) (YF j)) +
        (∑ i in Finset.range m, e (XF i) (BF i)) +
        ∑ j in Finset.range n, ∑ i in Finset.range m, γ i j • e (XF i) (YF j)) +
      e u12 (((∑ i in Finset.range m, ∑ j in Finset.range n, γ i j * R1 i * S1 j) • v12 +
          (∑ i in Finset.range m, ∑ j in Finset.range n, γ i j * R1 i * S2 j) • v22 +
          (∑ i in Finset.range m, R1 i • BF i) +
          (∑ j in Finset.range n, (∑ i in Finset.range m, γ i j * R1 i) • YF j)) +
        ((-z00) • v12 + (-z10) • v22)) +
      e u22 (((∑ i in Finset.range m, ∑ j in Finset.range n, γ i j * R2 i * S1 j) • v12 +
          (∑ i in Finset.range m, ∑ j in Finset.range n, γ i j * R2 i * S2 j) • v22 +
          (∑ i in Finset.range m, R2 i • BF i) +
          (∑ j in Finset.range n, (∑ i in Finset.range m, γ i j * R2 i) • YF j)) +
        ((-z01) • v12 + (-z11) • v22)) +
      e ((∑ j in Finset.range n, S1 j • AF j) +
          (∑ i in Finset.range m, (∑ j in Finset.range n, γ i j * S1 j) • XF i) +
          (z00 • u12 + z01 • u22)) v12 +
      e ((∑ j in Finset.range n, S2 j • AF j) +
          (∑ i in Finset.range m, (∑ j in Finset.range n, γ i j * S2 j) • XF i) +
          (z10 • u12 + z11 • u22)) v22 := by
  have hA : (∑ j in Finset.range n, e (AF j) (d2F j)) =
      ∑ j in Finset.range n,
        (e (AF j) (YF j) + (S1 j • e (AF j) v12 + S2 j • e (AF j) v22)) := by
    refine Finset.sum_congr rfl fun j hj => ?_
    rw [hd2 j (Finset.mem_range.mp hj)]
    simp only [hp.add_right, hp.smul_right]
  have hB : (∑ i in Finset.range m, e (c2F i) (bdF i)) =
      ∑ i in Finset.range m,
        ((e (XF i) (BF i) + ∑ j in Finset.range n,
          (γ i j • e (XF i) (YF j) +
            ((γ i j * S1 j) • e (XF i) v12 + (γ i j * S2 j) • e (XF i) v22))) +
         ((R1 i • e u12 (BF i) + ∑ j in Finset.range n,
            ((γ i j * R1 i) • e u12 (YF j) +
              ((γ i j * R1 i * S1 j) • e u12 v12 + (γ i j * R1 i * S2 j) • e u12 v22))) +
          (R2 i • e u22 (BF i) + ∑ j in Finset.range n,
            ((γ i j * R2 i) • e u22 (YF j) +
              ((γ i j * R2 i * S1 j) • e u22 v12 + (γ i j * R2 i * S2 j) • e u22 v22))))) := by
    refine Finset.sum_congr rfl fun i hi => ?_
    rw [hc2 i (Finset.mem_range.mp hi), hbd i (Finset.mem_range.mp hi)]
    rw [hp.add_left]
    rw [ppe_atom_row hp n (γ i) (XF i) v12 v22 S1 S2 (BF i) YF d2F hd2]
    rw [ppe_pair_row hp n (γ i) (R1 i) (R2 i) u12 u22 v12 v22 S1 S2 (BF i) YF d2F hd2]
  rw [hA, hB]
  have hswxy : (∑ i in Finset.range m, ∑ j in Finset.range n,
      γ i j • e (XF i) (YF j)) = ∑ j in Finset.range n,
      ∑ i in Finset.range m, γ i j • e (XF i) (YF j) := Finset.sum_comm
  have hsw1 : (∑ j in Finset.range n, ∑ i in Finset.range m,
      (γ i j * R1 i) • e u12 (YF j)) = ∑ i in Finset.range m,
      ∑ j in Finset.range n, (γ i j * R1 i) • e u12 (YF j) := Finset.sum_comm
  have hsw2 : (∑ j in Finset.range n, ∑ i in Finset.range m,
      (γ i j * R2 i) • e u22 (YF j)) = ∑ i in Finset.range m,
      ∑ j in Finset.range n, (γ i j * R2 i) • e u22 (YF j) := Finset.sum_comm
  simp only [hp.add_right, hp.smul_right, hp.add_left, hp.smul_left,
    hp.neg_right, hp.neg_left, hp.sum_left, hp.sum_right, zero_add, neg_smul]
  simp only [Finset.sum_smul]
  simp only [Finset.sum_add_distrib]
  rw [hswxy, hsw1, hsw2]
  abel

end AbstractPPE

section Plumbing

variable {F G₁ G₂ GT : Type}
variable [CommRing F]
variable [AddCommGroup G₁] [AddCommGroup G₂] [AddCommGroup GT]
variable [Module F G₁] [Module F G₂] [Module F GT]
variable {e : G₁ → G₂ → GT}

theorem setup_equation_a (cks : CommitmentKeys G₁ G₂)
    (ay : List (G₁ × Variable F G₂)) (xb : List (Variable F G₁ × G₂))
    (gamma z : Matrix F) :
    (setup e cks ay xb gamma z).equation.a = ay.map Prod.fst := rfl

theorem setup_equation_b (cks : CommitmentKeys G₁ G₂)
    (ay : List (G₁ × Variable F G₂)) (xb : List (Variable F G₁ × G₂))
    (gamma z : Matrix F) :
    (setup e cks ay xb gamma z).equation.b = xb.map Prod.snd := rfl

theorem setup_equation_gamma (cks : CommitmentKeys G₁ G₂)
    (ay : List (G₁ × Variable F G₂)) (xb : List (Variable F G₁ × G₂))
    (gamma z : Matrix F) :
    (setup e cks ay xb gamma z).equation.gamma = gamma := rfl

theorem setup_c (cks : CommitmentKeys G₁ G₂)
    (ay : List (G₁ × Variable F G₂)) (xb : List (Variable F G₁ × G₂))
    (gamma z : Matrix F) :
    (setup e cks ay xb gamma z).c =
      (xb.map Prod.fst).map (fun xi => cks.u.commit xi) := rfl

theorem setup_d (cks : CommitmentKeys G₁ G₂)
    (ay : List (G₁ × Variable F G₂)) (xb : List (Variable F G₁ × G₂))
    (gamma z : Matrix F) :
    (setup e cks ay xb gamma z).d =
      (ay.map Prod.snd).map (fun yi => cks.v.commit yi) := rfl

theorem setup_proof (cks : CommitmentKeys G₁ G₂)
    (ay : List (G₁ × Variable F G₂)) (xb : List (Variable F G₁ × G₂))
    (gamma z : Matrix F) :
    (setup e cks ay xb gamma z).proof =
      Proof.new z cks (setup e cks ay xb gamma z).equation
        (xb.map Prod.fst) (ay.map Prod.snd) := rfl

theorem setup_target (cks : CommitmentKeys G₁ G₂)
    (ay : List (G₁ × Variable F G₂)) (xb : List (Variable F G₁ × G₂))
    (gamma z : Matrix F) :
    (setup e cks ay xb gamma z).equation.target =
      (∑ j in Finset.range ay.length,
        e (ay.getD j (0, varZero)).1 (ay.getD j (0, varZero)).2.value) +
      (∑ i in Finset.range xb.length,
        e (xb.getD i (varZero, 0)).1.value (xb.getD i (varZero, 0)).2) +
      ∑ j in Finset.range (ay.map Prod.snd).length,
        ∑ i in Finset.range (xb.map Prod.fst).length,
          gamma.get i j •
            e ((xb.map Prod.fst).getD i varZero).value
              ((ay.map Prod.snd).getD j varZero).value := rfl

theorem proof_new_phi_dim (z : Matrix F) (cks : CommitmentKeys G₁ G₂)
    (equ : Equation F G₁ G₂ GT) (x : List (Variable F G₁))
    (y : List (Variable F G₂)) :
    (Proof.new z cks equ x y).phi.dim = (2, 2) := rfl

theorem proof_new_theta_dim (z : Matrix F) (cks : CommitmentKeys G₁ G₂)
    (equ : Equation F G₁ G₂ GT) (x : List (Variable F G₁))
    (y : List (Variable F G₂)) :
    (Proof.new z cks equ x y).theta.dim = (2, 2) := rfl

theorem proof_new_phi_get_00 (z : Matrix F) (cks : CommitmentKeys G₁ G₂)
    (equ : Equation F G₁ G₂ GT) (x : List (Variable F G₁))
    (y : List (Variable F G₂)) :
    (Proof.new z cks equ x y).phi.get 0 0 =
      ((t11_t12_t21_t22 (x.map Variable.rand) (y.map Variable.rand) equ.gamma).1 • cks.v.u1.1 +
        (t11_t12_t21_t22 (x.map Variable.rand) (y.map Variable.rand) equ.gamma).2.1 • cks.v.u2.1) +
      ((-z.get 0 0) • cks.v.u1.1 + (-z.get 1 0) • cks.v.u2.1) := rfl

theorem proof_new_phi_get_01 (z : Matrix F) (cks : CommitmentKeys G₁ G₂)
    (equ : Equation F G₁ G₂ GT) (x : List (Variable F G₁))
    (y : List (Variable F G₂)) :
    (Proof.new z cks equ x y).phi.get 0 1 =
      ((t11_t12_t21_t22 (x.map Variable.rand) (y.map Variable.rand) equ.gamma).1 • cks.v.u1.2 +
        (t11_t12_t21_t22 (x.map Variable.rand) (y.map Variable.rand) equ.gamma).2.1 • cks.v.u2.2 +
        (∑ i in Finset.range (min equ.b.length x.length),
          (x.getD i varZero).rand.r1 • equ.b.getD i 0) +
        ∑ j in Finset.range y.length,
          (∑ i in Finset.range x.length,
            equ.gamma.get i j * (x.getD i varZero).rand.r1) • (y.getD j varZero).value) +
      ((-z.get 0 0) • cks.v.u1.2 + (-z.get 1 0) • cks.v.u2.2) := rfl

theorem proof_new_phi_get_10 (z : Matrix F) (cks : CommitmentKeys G₁ G₂)
    (equ : Equation F G₁ G₂ GT) (x : List (Variable F G₁))
    (y : List (Variable F G₂)) :
    (Proof.new z cks equ x y).phi.get 1 0 =
      ((t11_t12_t21_t22 (x.map Variable.rand) (y.map Variable.rand) equ.gamma).2.2.1 • cks.v.u1.1 +
        (t11_t12_t21_t22 (x.map Variable.rand) (y.map Variable.rand) equ.gamma).2.2.2 • cks.v.u2.1) +
      ((-z.get 0 1) • cks.v.u1.1 + (-z.get 1 1) • cks.v.u2.1) := rfl

theorem proof_new_phi_get_11 (z : Matrix F) (cks : CommitmentKeys G₁ G₂)
    (equ : Equation F G₁ G₂ GT) (x : List (Variable F G₁))
    (y : List (Variable F G₂)) :
    (Proof.new z cks equ x y).phi.get 1 1 =
      ((t11_t12_t21_t22 (x.map Variable.rand) (y.map Variable.rand) equ.gamma).2.2.1 • cks.v.u1.2 +
        (t11_t12_t21_t22 (x.map Variable.rand) (y.map Variable.rand) equ.gamma).2.2.2 • cks.v.u2.2 +
        (∑ i in Finset.range (min equ.b.length x.length),
          (x.getD i varZero).rand.r2 • equ.b.getD i 0) +
        ∑ j in Finset.range y.length,
          (∑ i in Finset.range x.length,
            equ.gamma.get i j * (x.getD i varZero).rand.r2) • (y.getD j varZero).value) +
      ((-z.get 0 1) • cks.v.u1.2 + (-z.get 1 1) • cks.v.u2.2) := rfl

theorem proof_new_theta_get_00 (z : Matrix F) (cks : CommitmentKeys G₁ G₂)
    (equ : Equation F G₁ G₂ GT) (x : List (Variable F G₁))
    (y : List (Variable F G₂)) :
    (Proof.new z cks equ x y).theta.get 0 0 =
      0 + (z.get 0 0 • cks.u.u1.1 + z.get 0 1 • cks.u.u2.1) := rfl

theorem proof_new_theta_get_01 (z : Matrix F) (cks : CommitmentKeys G₁ G₂)
    (equ : Equation F G₁ G₂ GT) (x : List (Variable F G₁))
    (y : List (Variable F G₂)) :
    (Proof.new z cks equ x y).theta.get 0 1 =
      ((∑ j in Finset.range (min equ.a.length y.length),
          (y.getD j varZero).rand.r1 • equ.a.getD j 0) +
        ∑ i in Finset.range x.length,
          (∑ j in Finset.range y.length,
            equ.gamma.get i j * (y.getD j varZero).rand.r1) • (x.getD i varZero).value) +
      (z.get 0 0 • cks.u.u1.2 + z.get 0 1 • cks.u.u2.2) := rfl

theorem proof_new_theta_get_10 (z : Matrix F) (cks : CommitmentKeys G₁ G₂)
    (equ : Equation F G₁ G₂ GT) (x : List (Variable F G₁))
    (y : List (Variable F G₂)) :
    (Proof.new z cks equ x y).theta.get 1 0 =
      0 + (z.get 1 0 • cks.u.u1.1 + z.get 1 1 • cks.u.u2.1) := rfl

theorem proof_new_theta_get_11 (z : Matrix F) (cks : CommitmentKeys G₁ G₂)
    (equ : Equation F G₁ G₂ GT) (x : List (Variable F G₁))
    (y : List (Variable F G₂)) :
    (Proof.new z cks equ x y).theta.get 1 1 =
      ((∑ j in Finset.range (min equ.a.length y.length),
          (y.getD j varZero).rand.r2 • equ.a.getD j 0) +
        ∑ i in Finset.range x.length,
          (∑ j in Finset.range y.length,
            equ.gamma.get i j * (y.getD j varZero).rand.r2) • (x.getD i varZero).value) +
      (z.get 1 0 • cks.u.u1.2 + z.get 1 1 • cks.u.u2.2) := rfl

theorem t_proj_11 (x : List (Variable F G₁)) (y : List (Variable F G₂))
    (g : Matrix F) :
    (t11_t12_t21_t22 (x.map Variable.rand) (y.map Variable.rand) g).1 =
      ∑ i in Finset.range x.length, ∑ j in Finset.range y.length,
        g.get i j * (x.getD i varZero).rand.r1 * (y.getD j varZero).rand.r1 := by
  unfold t11_t12_t21_t22
  simp only [List.length_map]
  refine Finset.sum_congr rfl fun i hi => Finset.sum_congr rfl fun j hj => ?_
  rw [getD_map_of_lt Variable.rand x i (Finset.mem_range.mp hi) _ varZero,
    getD_map_of_lt Variable.rand y j (Finset.mem_range.mp hj) _ varZero]

theorem t_proj_12 (x : List (Variable F G₁)) (y : List (Variable F G₂))
    (g : Matrix F) :
    (t11_t12_t21_t22 (x.map Variable.rand) (y.map Variable.rand) g).2.1 =
      ∑ i in Finset.range x.length, ∑ j in Finset.range y.length,
        g.get i j * (x.getD i varZero).rand.r1 * (y.getD j varZero).rand.r2 := by
  unfold t11_t12_t21_t22
  simp only [List.length_map]
  refine Finset.sum_congr rfl fun i hi => Finset.sum_congr rfl fun j hj => ?_
  rw [getD_map_of_lt Variable.rand x i (Finset.mem_range.mp hi) _ varZero,
    getD_map_of_lt Variable.rand y j (Finset.mem_range.mp hj) _ varZero]

theorem t_proj_21 (x : List (Variable F G₁)) (y : List (Variable F G₂))
    (g : Matrix F) :
    (t11_t12_t21_t22 (x.map Variable.rand) (y.map Variable.rand) g).2.2.1 =
      ∑ i in Finset.range x.length, ∑ j in Finset.range y.length,
        g.get i j * (x.getD i varZero).rand.r2 * (y.getD j varZero).rand.r1 := by
  unfold t11_t12_t21_t22
  simp only [List.length_map]
  refine Finset.sum_congr rfl fun i hi => Finset.sum_congr rfl fun j hj => ?_
  rw [getD_map_of_lt Variable.rand x i (Finset.mem_range.mp hi) _ varZero,
    getD_map_of_lt Variable.rand y j (Finset.mem_range.mp hj) _ varZero]

theorem t_proj_22 (x : List (Variable F G₁)) (y : List (Variable F G₂))
    (g : Matrix F) :
    (t11_t12_t21_t22 (x.map Variable.rand) (y.map Variable.rand) g).2.2.2 =
      ∑ i in Finset.range x.length, ∑ j in Finset.range y.length,
        g.get i j * (x.getD i varZero).rand.r2 * (y.getD j varZero).rand.r2 := by
  unfold t11_t12_t21_t22
  simp only [List.length_map]
  refine Finset.sum_congr rfl fun i hi => Finset.sum_congr rfl fun j hj => ?_
  rw [getD_map_of_lt Variable.rand x i (Finset.mem_range.mp hi) _ varZero,
    getD_map_of_lt Variable.rand y j (Finset.mem_range.mp hj) _ varZero]

end Plumbing

section Master

variable {F G₁ G₂ GT : Type}
variable [CommRing F]
variable [AddCommGroup G₁] [AddCommGroup G₂] [AddCommGroup GT]
variable [Module F G₁] [Module F G₂] [Module F GT]
variable {e : G₁ → G₂ → GT}

theorem setup_verify_aux [DecidableEq GT] (hp : IsPairing F e)
    (cks : CommitmentKeys G₁ G₂) (ay : List (G₁ × Variable F G₂))
    (xb : List (Variable F G₁ × G₂)) (gamma z : Matrix F)
    (hdim : gamma.dim = (xb.length, ay.length)) :
    (setup e cks ay xb gamma z).equation.verify e cks
      (setup e cks ay xb gamma z).c (setup e cks ay xb gamma z).d
      (setup e cks ay xb gamma z).proof = true := by
  rw [verify_true_iff]
  refine ⟨?_, ?_, ?_, ?_, ?_⟩
  · -- dimension gate
    refine ⟨?_, ?_, ?_, ?_, ?_, ?_⟩ <;>
      simp [setup_equation_a, setup_equation_b, setup_equation_gamma,
        setup_c, setup_d, setup_proof, proof_new_phi_dim, proof_new_theta_dim,
        hdim, List.length_map]
  · -- identity 1
    unfold Equation.lhs1 Equation.rhs1
    simp only [setup_equation_a, setup_equation_b, setup_equation_gamma,
      setup_c, setup_d, setup_proof, proof_new_phi_get_00, proof_new_phi_get_10,
      proof_new_theta_get_00, proof_new_theta_get_10,
      t_proj_11, t_proj_12, t_proj_21, t_proj_22, List.length_map]
    have hc1 : ∀ i, i < xb.length →
        ((((xb.map Prod.fst).map (fun xi => cks.u.commit xi)).getD i comZero)).c1 =
          ((xb.map Prod.fst).getD i varZero).rand.r1 • cks.u.u1.1 +
          ((xb.map Prod.fst).getD i varZero).rand.r2 • cks.u.u2.1 := by
      intro i hi
      rw [getD_map_of_lt _ _ _ (by simpa using hi) _ varZero]
      simp [CommitmentKey.commit]
    have hd1 : ∀ j, j < ay.length →
        ((((ay.map Prod.snd).map (fun yi => cks.v.commit yi)).getD j comZero)).c1 =
          ((ay.map Prod.snd).getD j varZero).rand.r1 • cks.v.u1.1 +
          ((ay.map Prod.snd).getD j varZero).rand.r2 • cks.v.u2.1 := by
      intro j hj
      rw [getD_map_of_lt _ _ _ (by simpa using hj) _ varZero]
      simp [CommitmentKey.commit]
    exact ppe_eq1_complete hp xb.length ay.length
      (fun i j => gamma.get i j)
      (fun i => ((xb.map Prod.fst).getD i varZero).rand.r1)
      (fun i => ((xb.map Prod.fst).getD i varZero).rand.r2)
      (fun j => ((ay.map Prod.snd).getD j varZero).rand.r1)
      (fun j => ((ay.map Prod.snd).getD j varZero).rand.r2)
      (fun i => (((xb.map Prod.fst).map (fun xi => cks.u.commit xi)).getD i comZero).c1)
      (fun j => (((ay.map Prod.snd).map (fun yi => cks.v.commit yi)).getD j comZero).c1)
      cks.u.u1.1 cks.u.u2.1 cks.v.u1.1 cks.v.u2.1
      (z.get 0 0) (z.get 0 1) (z.get 1 0) (z.get 1 1) hc1 hd1
  · -- identity 2
    unfold Equation.lhs2 Equation.rhs2
    simp only [setup_equation_a, setup_equation_b, setup_equation_gamma,
      setup_c, setup_d, setup_proof, proof_new_phi_get_01, proof_new_phi_get_11,
      proof_new_theta_get_00, proof_new_theta_get_10,
      t_proj_11, t_proj_12, t_proj_21, t_proj_22, List.length_map, Nat.min_self]
    have hc1 : ∀ i, i < xb.length →
        ((((xb.map Prod.fst).map (fun xi => cks.u.commit xi)).getD i comZero)).c1 =
          ((xb.map Prod.fst).getD i varZero).rand.r1 • cks.u.u1.1 +
          ((xb.map Prod.fst).getD i varZero).rand.r2 • cks.u.u2.1 := by
      intro i hi
      rw [getD_map_of_lt _ _ _ (by simpa using hi) _ varZero]
      simp [CommitmentKey.commit]
    have hd2 : ∀ j, j < ay.length →
        ((((ay.map Prod.snd).map (fun yi => cks.v.commit yi)).getD j comZero)).c2 =
          ((ay.map Prod.snd).getD j varZero).value +
          (((ay.map Prod.snd).getD j varZero).rand.r1 • cks.v.u1.2 +
            ((ay.map Prod.snd).getD j varZero).rand.r2 • cks.v.u2.2) := by
      intro j hj
      rw [getD_map_of_lt _ _ _ (by simpa using hj) _ varZero]
      simp [CommitmentKey.commit]
    have hbd : ∀ i, i < xb.length →
        (((setup e cks ay xb gamma z).equation.bd
            ((xb.map Prod.fst).map (fun xi => cks.u.commit xi))
            ((ay.map Prod.snd).map (fun yi => cks.v.commit yi))).getD i 0) =
          (xb.map Prod.snd).getD i 0 +
          ∑ j in Finset.range ay.length, gamma.get i j •
            ((((ay.map Prod.snd).map (fun yi => cks.v.commit yi)).getD j comZero)).c2 := by
      intro i hi
      unfold Equation.bd
      rw [getD_range_map_of_lt _ _ _ (by simpa using hi) 0]
      simp only [setup_equation_b, setup_equation_gamma, List.length_map]
    exact ppe_eq2_complete hp xb.length ay.length
      (fun i j => gamma.get i j)
      (fun i => ((xb.map Prod.fst).getD i varZero).rand.r1)
      (fun i => ((xb.map Prod.fst).getD i varZero).rand.r2)
      (fun j => ((ay.map Prod.snd).getD j varZero).rand.r1)
      (fun j => ((ay.map Prod.snd).getD j varZero).rand.r2)
      (fun i => (((xb.map Prod.fst).map (fun xi => cks.u.commit xi)).getD i comZero).c1)
      (fun j => (((ay.map Prod.snd).map (fun yi => cks.v.commit yi)).getD j comZero).c2)
      (fun i => (((setup e cks ay xb gamma z).equation.bd
        ((xb.map Prod.fst).map (fun xi => cks.u.commit xi))
        ((ay.map Prod.snd).map (fun yi => cks.v.commit yi))).getD i 0))
      (fun i => (xb.map Prod.snd).getD i 0)
      (fun j => ((ay.map Prod.snd).getD j varZero).value)
      cks.u.u1.1 cks.u.u2.1 cks.v.u1.2 cks.v.u2.2
      (z.get 0 0) (z.get 0 1) (z.get 1 0) (z.get 1 1) hc1 hd2 hbd
  · -- identity 3
    unfold Equation.lhs3 Equation.rhs3
    simp only [setup_equation_a, setup_equation_b, setup_equation_gamma,
      setup_c, setup_d, setup_proof, proof_new_phi_get_00, proof_new_phi_get_10,
      proof_new_theta_get_01, proof_new_theta_get_11,
      t_proj_11, t_proj_12, t_proj_21, t_proj_22, List.length_map, Nat.min_self]
    have hc2 : ∀ i, i < xb.length →
        ((((xb.map Prod.fst).map (fun xi => cks.u.commit xi)).getD i comZero)).c2 =
          ((xb.map Prod.fst).getD i varZero).value +
          (((xb.map Prod.fst).getD i varZero).rand.r1 • cks.u.u1.2 +
            ((xb.map Prod.fst).getD i varZero).rand.r2 • cks.u.u2.2) := by
      intro i hi
      rw [getD_map_of_lt _ _ _ (by simpa using hi) _ varZero]
      simp [CommitmentKey.commit]
    have hd1 : ∀ j, j < ay.length →
        ((((ay.map Prod.snd).map (fun yi => cks.v.commit yi)).getD j comZero)).c1 =
          ((ay.map Prod.snd).getD j varZero).rand.r1 • cks.v.u1.1 +
          ((ay.map Prod.snd).getD j varZero).rand.r2 • cks.v.u2.1 := by
      intro j hj
      rw [getD_map_of_lt _ _ _ (by simpa using hj) _ varZero]
      simp [CommitmentKey.commit]
    exact ppe_eq3_complete hp xb.length ay.length
      (fun i j => gamma.get i j)
      (fun i => ((xb.map Prod.fst).getD i varZero).rand.r1)
      (fun i => ((xb.map Prod.fst).getD i varZero).rand.r2)
      (fun j => ((ay.map Prod.snd).getD j varZero).rand.r1)
      (fun j => ((ay.map Prod.snd).getD j varZero).rand.r2)
      (fun i => (((xb.map Prod.fst).map (fun xi => cks.u.commit xi)).getD i comZero).c2)
      (fun i => ((xb.map Prod.fst).getD i varZero).value)
      (fun j => (ay.map Prod.fst).getD j 0)
      (fun j => (((ay.map Prod.snd).map (fun yi => cks.v.commit yi)).getD j comZero).c1)
      cks.u.u1.2 cks.u.u2.2 cks.v.u1.1 cks.v.u2.1
      (z.get 0 0) (z.get 0 1) (z.get 1 0) (z.get 1 1) hc2 hd1
  · -- identity 4
    unfold Equation.lhs4 Equation.rhs4
    simp only [setup_equation_a, setup_equation_b, setup_equation_gamma,
      setup_c, setup_d, setup_proof, setup_target,
      proof_new_phi_get_01, proof_new_phi_get_11,
      proof_new_theta_get_01, proof_new_theta_get_11,
      t_proj_11, t_proj_12, t_proj_21, t_proj_22, List.length_map, Nat.min_self]
    have htgt1 : (∑ j in Finset.range ay.length,
        e (ay.getD j (0, varZero)).1 (ay.getD j (0, varZero)).2.value) =
        ∑ j in Finset.range ay.length,
          e ((ay.map Prod.fst).getD j 0) ((ay.map Prod.snd).getD j varZero).value := by
      refine Finset.sum_congr rfl fun j hj => ?_
      rw [← getD_map_of_lt Prod.fst ay j (Finset.mem_range.mp hj) 0 (0, varZero),
        ← getD_map_of_lt Prod.snd ay j (Finset.mem_range.mp hj) varZero (0, varZero)]
    have htgt2 : (∑ i in Finset.range xb.length,
        e (xb.getD i (varZero, 0)).1.value (xb.getD i (varZero, 0)).2) =
        ∑ i in Finset.range xb.length,
          e ((xb.map Prod.fst).getD i varZero).value ((xb.map Prod.snd).getD i 0) := by
      refine Finset.sum_congr rfl fun i hi => ?_
      rw [← getD_map_of_lt Prod.fst xb i (Finset.mem_range.mp hi) varZero (varZero, 0),
        ← getD_map_of_lt Prod.snd xb i (Finset.mem_range.mp hi) 0 (varZero, 0)]
    rw [htgt1, htgt2]
    have hc2 : ∀ i, i < xb.length →
        ((((xb.map Prod.fst).map (fun xi => cks.u.commit xi)).getD i comZero)).c2 =
          ((xb.map Prod.fst).getD i varZero).value +
          (((xb.map Prod.fst).getD i varZero).rand.r1 • cks.u.u1.2 +
            ((xb.map Prod.fst).getD i varZero).rand.r2 • cks.u.u2.2) := by
      intro i hi
      rw [getD_map_of_lt _ _ _ (by simpa using hi) _ varZero]
      simp [CommitmentKey.commit]
    have hd2 : ∀ j, j < ay.length →
        ((((ay.map Prod.snd).map (fun yi => cks.v.commit yi)).getD j comZero)).c2 =
          ((ay.map Prod.snd).getD j varZero).value +
          (((ay.map Prod.snd).getD j varZero).rand.r1 • cks.v.u1.2 +
            ((ay.map Prod.snd).getD j varZero).rand.r2 • cks.v.u2.2) := by
      intro j hj
      rw [getD_map_of_lt _ _ _ (by simpa using hj) _ varZero]
      simp [CommitmentKey.commit]
    have hbd : ∀ i, i < xb.length →
        (((setup e cks ay xb gamma z).equation.bd
            ((xb.map Prod.fst).map (fun xi => cks.u.commit xi))
            ((ay.map Prod.snd).map (fun yi => cks.v.commit yi))).getD i 0) =
          (xb.map Prod.snd).getD i 0 +
          ∑ j in Finset.range ay.length, gamma.get i j •
            ((((ay.map Prod.snd).map (fun yi => cks.v.commit yi)).getD j comZero)).c2 := by
      intro i hi
      unfold Equation.bd
      rw [getD_range_map_of_lt _ _ _ (by simpa using hi) 0]
      simp only [setup_equation_b, setup_equation_gamma, List.length_map]
    exact ppe_eq4_complete hp xb.length ay.length
      (fun i j => gamma.get i j)
      (fun i => ((xb.map Prod.fst).getD i varZero).rand.r1)
      (fun i => ((xb.map Prod.fst).getD i varZero).rand.r2)
      (fun j => ((ay.map Prod.snd).getD j varZero).rand.r1)
      (fun j => ((ay.map Prod.snd).getD j varZero).rand.r2)
      (fun i => (((xb.map Prod.fst).map (fun xi => cks.u.commit xi)).getD i comZero).c2)
      (fun i => ((xb.map Prod.fst).getD i varZero).value)
      (fun j => (ay.map Prod.fst).getD j 0)
      (fun j => (((ay.map Prod.snd).map (fun yi => cks.v.commit yi)).getD j comZero).c2)
      (fun i => (((setup e cks ay xb gamma z).equation.bd
        ((xb.map Prod.fst).map (fun xi => cks.u.commit xi))
        ((ay.map Prod.snd).map (fun yi => cks.v.commit yi))).getD i 0))
      (fun i => (xb.map Prod.snd).getD i 0)
      (fun j => ((ay.map Prod.snd).getD j varZero).value)
      cks.u.u1.2 cks.u.u2.2 cks.v.u1.2 cks.v.u2.2
      (z.get 0 0) (z.get 0 1) (z.get 1 0) (z.get 1 1) hc2 hd2 hbd

end Master

section MainClaims

variable {F G₁ G₂ GT : Type}
variable [CommRing F]
variable [AddCommGroup G₁] [AddCommGroup G₂] [AddCommGroup GT]
variable [Module F G₁] [Module F G₂] [Module F GT]
variable {e : G₁ → G₂ → GT}

/-- C1: completeness — for commitment keys produced by any of the three
setup modes (`setup`/`rand`, `setup_ex`/`rand_ex`, `setup_wi`/`rand_wi`,
i.e. binding or WI keys from any generators and sampled scalars), any
constants and variables `ay`, `xb`, any `gamma` with
`gamma.dim = (|xb|, |ay|)` and any internal randomness `z`, the proof
system returned by the top-level `setup` verifies. -/
theorem claim_C1_setup_completeness [DecidableEq GT] (hp : IsPairing F e)
    (cks : CommitmentKeys G₁ G₂) (g1 : G₁) (g2 : G₂) (a1 a2 t1 t2 : F)
    (hcks : cks = CommitmentKeys.setup g1 g2 a1 a2 t1 t2 ∨
      cks = (CommitmentKeys.setup_ex g1 g2 a1 a2 t1 t2).1 ∨
      cks = CommitmentKeys.setup_wi g1 g2 a1 a2 t1 t2)
    (ay : List (G₁ × Variable F G₂)) (xb : List (Variable F G₁ × G₂))
    (gamma z : Matrix F) (hdim : gamma.dim = (xb.length, ay.length)) :
    (setup e cks ay xb gamma z).equation.verify e cks
      (setup e cks ay xb gamma z).c (setup e cks ay xb gamma z).d
      (setup e cks ay xb gamma z).proof = true :=
  setup_verify_aux hp cks ay xb gamma z hdim

/-- Witness for C1: a concrete 1×1 instance over `ZMod 5` under keys from
the binding setup. -/
theorem claim_C1_witness :
    (setup zmul exCks exAy exXb ⟨1, 1, [[2]]⟩ exZ).equation.verify zmul exCks
      (setup zmul exCks exAy exXb ⟨1, 1, [[2]]⟩ exZ).c
      (setup zmul exCks exAy exXb ⟨1, 1, [[2]]⟩ exZ).d
      (setup zmul exCks exAy exXb ⟨1, 1, [[2]]⟩ exZ).proof = true :=
  claim_C1_setup_completeness isPairing_zmul exCks (2 : ZMod 5) (3 : ZMod 5)
    (1 : ZMod 5) 2 3 4 (Or.inl rfl) exAy exXb ⟨1, 1, [[2]]⟩ exZ (by decide)

/-- C9: zero-dimension edge cases — with `m = 0` (empty `xb`, `gamma` of
dimension `(0, n)`) the top-level `setup` produces an empty commitment
vector `c` and the system verifies; symmetrically with `n = 0` (empty
`ay`, `gamma` of dimension `(m, 0)`) it produces empty `d` and verifies. -/
theorem claim_C9_zero_dimension_setup_verifies [DecidableEq GT]
    (hp : IsPairing F e) (cks : CommitmentKeys G₁ G₂)
    (ay : List (G₁ × Variable F G₂)) (xb : List (Variable F G₁ × G₂))
    (gamma0 gamma1 z z2 : Matrix F)
    (h0 : gamma0.dim = (0, ay.length)) (h1 : gamma1.dim = (xb.length, 0)) :
    ((setup e cks ay [] gamma0 z).c = [] ∧
      (setup e cks ay [] gamma0 z).equation.verify e cks
        (setup e cks ay [] gamma0 z).c (setup e cks ay [] gamma0 z).d
        (setup e cks ay [] gamma0 z).proof = true) ∧
    ((setup e cks [] xb gamma1 z2).d = [] ∧
      (setup e cks [] xb gamma1 z2).equation.verify e cks
        (setup e cks [] xb gamma1 z2).c (setup e cks [] xb gamma1 z2).d
        (setup e cks [] xb gamma1 z2).proof = true) := by
  refine ⟨⟨rfl, ?_⟩, ⟨rfl, ?_⟩⟩
  · exact setup_verify_aux hp cks ay [] gamma0 z (by simpa using h0)
  · exact setup_verify_aux hp cks [] xb gamma1 z2 (by simpa using h1)

/-- Witness for C9: concrete `(0, 1)` and `(1, 0)` instances over
`ZMod 5`. -/
theorem claim_C9_witness :
    ((setup zmul exCks exAy [] ⟨0, 1, []⟩ exZ).c = [] ∧
      (setup zmul exCks exAy [] ⟨0, 1, []⟩ exZ).equation.verify zmul exCks
        (setup zmul exCks exAy [] ⟨0, 1, []⟩ exZ).c
        (setup zmul exCks exAy [] ⟨0, 1, []⟩ exZ).d
        (setup zmul exCks exAy [] ⟨0, 1, []⟩ exZ).proof = true) ∧
    ((setup zmul exCks [] exXb ⟨1, 0, [[]]⟩ exZ).d = [] ∧
      (setup zmul exCks [] exXb ⟨1, 0, [[]]⟩ exZ).equation.verify zmul exCks
        (setup zmul exCks [] exXb ⟨1, 0, [[]]⟩ exZ).c
        (setup zmul exCks [] exXb ⟨1, 0, [[]]⟩ exZ).d
        (setup zmul exCks [] exXb ⟨1, 0, [[]]⟩ exZ).proof = true) :=
  claim_C9_zero_dimension_setup_verifies isPairing_zmul exCks exAy exXb
    ⟨0, 1, []⟩ ⟨1, 0, [[]]⟩ exZ exZ (by decide) (by decide)

end MainClaims


/-- C4 (code bug evaluation): composing a 1×1 equation with a 2×1 equation
panics in the source — `Equation::add` builds its upper-right zero block
with shape `(m', n')` instead of `(m, n')` (and the lower-left with
`(m, n)` instead of `(m', n)`), so the `ndarray` append along axis 1 fails
whenever `m ≠ m'` and the `.unwrap()` panics, instead of producing the
block-diagonal `diag(γ, γ')` equation the specification requires. -/
theorem claim_C4_equation_add_panics_on_mismatched_rows :
    Equation.add
      (⟨[1], [2], ⟨1, 1, [[1]]⟩, 0⟩ : Equation (ZMod 5) (ZMod 5) (ZMod 5) (ZMod 5))
      ⟨[1], [2, 3], ⟨2, 1, [[1], [2]]⟩, 0⟩ = none := by
  decide

/-- C3 (code bug evaluation): two proof systems that both verify under the
same commitment keys — one with `γ` of shape `(0, 1)`, one with `(1, 0)` —
cannot be composed: `ProofSystem::add` panics (modelled by `none`) inside
`Equation::add` because the zero blocks are built with swapped shapes,
instead of returning the verifying composed system the claim requires. -/
theorem claim_C3_proofsystem_add_panics_on_verifying_inputs :
    exPsM0.equation.verify zmul exCks exPsM0.c exPsM0.d exPsM0.proof = true ∧
    exPsN0.equation.verify zmul exCks exPsN0.c exPsN0.d exPsN0.proof = true ∧
    ProofSystem.add exPsM0 exPsN0 = none := by
  refine ⟨by decide, by decide, by decide⟩

section Rand

variable {F G₁ G₂ GT : Type}
variable [CommRing F]
variable [AddCommGroup G₁] [AddCommGroup G₂] [AddCommGroup GT]
variable [Module F G₁] [Module F G₂] [Module F GT]
variable {e : G₁ → G₂ → GT}

theorem Matrix.eq_new22 {α : Type} [Zero α] (mt : Matrix α) (hwf : mt.WF)
    (hdim : mt.dim = (2, 2)) :
    mt = Matrix.new22 (mt.get 0 0) (mt.get 0 1) (mt.get 1 0) (mt.get 1 1) := by
  obtain ⟨rows, cols, data⟩ := mt
  obtain ⟨hlen, hrow⟩ := hwf
  simp only [Matrix.dim, Prod.mk.injEq] at hdim
  obtain ⟨h2, h2c⟩ := hdim
  subst h2 h2c
  simp only at hlen
  obtain ⟨r0, r1, rfl⟩ := List.length_eq_two.mp hlen
  have hr0 : r0.length = 2 := hrow r0 (by simp)
  have hr1 : r1.length = 2 := hrow r1 (by simp)
  obtain ⟨a, b, rfl⟩ := List.length_eq_two.mp hr0
  obtain ⟨c, d, rfl⟩ := List.length_eq_two.mp hr1
  rfl

theorem ppe_eq1_randomize (hp : IsPairing F e) (m n : Nat)
    (γ : Nat → Nat → F) (R1 R2 S1 S2 : Nat → F)
    (cOld1 cNew1 : Nat → G₁) (dOld1 dNew1 : Nat → G₂)
    (u11 u21 : G₁) (v11 v21 : G₂) (z00 z01 z10 z11 : F)
    (p00 p10 : G₂) (th00 th10 : G₁)
    (hcnew : ∀ i, i < m → cNew1 i = cOld1 i + (R1 i • u11 + R2 i • u21))
    (hdnew : ∀ j, j < n → dNew1 j = dOld1 j + (S1 j • v11 + S2 j • v21))
    (hold : (∑ i in Finset.range m,
        e (cOld1 i) (∑ j in Finset.range n, γ i j • dOld1 j)) =
      e u11 p00 + e u21 p10 + e th00 v11 + e th10 v21) :
    ∑ i in Finset.range m, e (cNew1 i) (∑ j in Finset.range n, γ i j • dNew1 j) =
      e u11 ((p00 + ((∑ j in Finset.range n,
            (∑ i in Finset.range m, γ i j * R1 i) • dOld1 j) +
          ((∑ i in Finset.range m, ∑ j in Finset.range n, γ i j * R1 i * S1 j) • v11 +
            (∑ i in Finset.range m, ∑ j in Finset.range n, γ i j * R1 i * S2 j) • v21))) +
        ((-z00) • v11 + (-z10) • v21)) +
      e u21 ((p10 + ((∑ j in Finset.range n,
            (∑ i in Finset.range m, γ i j * R2 i) • dOld1 j) +
          ((∑ i in Finset.range m, ∑ j in Finset.range n, γ i j * R2 i * S1 j) • v11 +
            (∑ i in Finset.range m, ∑ j in Finset.range n, γ i j * R2 i * S2 j) • v21))) +
        ((-z01) • v11 + (-z11) • v21)) +
      e ((th00 + ∑ i in Finset.range m,
          (∑ j in Finset.range n, γ i j * S1 j) • cOld1 i) +
        (z00 • u11 + z01 • u21)) v11 +
      e ((th10 + ∑ i in Finset.range m,
          (∑ j in Finset.range n, γ i j * S2 j) • cOld1 i) +
        (z10 • u11 + z11 • u21)) v21 := by
  have hsplit : ∀ i, (∑ j in Finset.range n, γ i j • dNew1 j) =
      (∑ j in Finset.range n, γ i j • dOld1 j) +
      ∑ j in Finset.range n, γ i j • (S1 j • v11 + S2 j • v21) := by
    intro i
    rw [← Finset.sum_add_distrib]
    refine Finset.sum_congr rfl fun j hj => ?_
    rw [hdnew j (Finset.mem_range.mp hj), smul_add]
  have hL : (∑ i in Finset.range m,
      e (cNew1 i) (∑ j in Finset.range n, γ i j • dNew1 j)) =
      ∑ i in Finset.range m,
        (e (cOld1 i) (∑ j in Finset.range n, γ i j • dOld1 j) +
          ((∑ j in Finset.range n,
            ((γ i j * S1 j) • e (cOld1 i) v11 + (γ i j * S2 j) • e (cOld1 i) v21)) +
          (((∑ j in Finset.range n, (γ i j * R1 i) • e u11 (dOld1 j)) +
            (∑ j in Finset.range n, (γ i j * R2 i) • e u21 (dOld1 j))) +
          ∑ j in Finset.range n,
            ((γ i j * R1 i * S1 j) • e u11 v11 + (γ i j * R1 i * S2 j) • e u11 v21 +
              ((γ i j * R2 i * S1 j) • e u21 v11 + (γ i j * R2 i * S2 j) • e u21 v21))))) := by
    refine Finset.sum_congr rfl fun i hi => ?_
    rw [hcnew i (Finset.mem_range.mp hi), hsplit i, hp.add_left, hp.add_right,
      hp.add_right]
    have eB : e (cOld1 i) (∑ j in Finset.range n, γ i j • (S1 j • v11 + S2 j • v21)) =
        ∑ j in Finset.range n,
          ((γ i j * S1 j) • e (cOld1 i) v11 + (γ i j * S2 j) • e (cOld1 i) v21) := by
      rw [hp.sum_right]
      refine Finset.sum_congr rfl fun j hj => ?_
      simp only [hp.smul_right, hp.add_right, smul_add, smul_smul]
    have eA : e (R1 i • u11 + R2 i • u21) (∑ j in Finset.range n, γ i j • dOld1 j) =
        (∑ j in Finset.range n, (γ i j * R1 i) • e u11 (dOld1 j)) +
        (∑ j in Finset.range n, (γ i j * R2 i) • e u21 (dOld1 j)) := by
      rw [hp.add_left]
      congr 1
      · simp only [hp.smul_left, hp.sum_right, hp.smul_right, Finset.smul_sum,
          smul_smul]
        refine Finset.sum_congr rfl fun j hj => ?_
        rw [mul_comm]
      · simp only [hp.smul_left, hp.sum_right, hp.smul_right, Finset.smul_sum,
          smul_smul]
        refine Finset.sum_congr rfl fun j hj => ?_
        rw [mul_comm]
    have eT : e (R1 i • u11 + R2 i • u21)
        (∑ j in Finset.range n, γ i j • (S1 j • v11 + S2 j • v21)) =
        ∑ j in Finset.range n,
          ((γ i j * R1 i * S1 j) • e u11 v11 + (γ i j * R1 i * S2 j) • e u11 v21 +
            ((γ i j * R2 i * S1 j) • e u21 v11 + (γ i j * R2 i * S2 j) • e u21 v21)) := by
      rw [hp.add_left, hp.sum_right, hp.sum_right, ← Finset.sum_add_distrib]
      refine Finset.sum_congr rfl fun j hj => ?_
      simp only [hp.smul_left, hp.smul_right, hp.add_right, smul_add, smul_smul]
      module
    rw [eB, eA, eT]
    abel
  rw [hL]
  simp only [Finset.sum_add_distrib]
  rw [hold]
  have hsw1 : (∑ i in Finset.range m, ∑ j in Finset.range n,
      (γ i j * R1 i) • e u11 (dOld1 j)) = ∑ j in Finset.range n,
      ∑ i in Finset.range m, (γ i j * R1 i) • e u11 (dOld1 j) := Finset.sum_comm
  have hsw2 : (∑ i in Finset.range m, ∑ j in Finset.range n,
      (γ i j * R2 i) • e u21 (dOld1 j)) = ∑ j in Finset.range n,
      ∑ i in Finset.range m, (γ i j * R2 i) • e u21 (dOld1 j) := Finset.sum_comm
  rw [hsw1, hsw2]
  simp only [hp.add_right, hp.smul_right, hp.add_left, hp.smul_left,
    hp.neg_right, hp.neg_left, hp.sum_right, hp.sum_left, neg_smul,
    Finset.sum_smul, Finset.sum_add_distrib]
  abel

theorem ppe_eq2_randomize (hp : IsPairing F e) (m n : Nat)
    (γ : Nat → Nat → F) (R1 R2 S1 S2 : Nat → F)
    (cOld1 cNew1 : Nat → G₁) (dOld2 dNew2 bdOld bdNew BF : Nat → G₂)
    (u11 u21 : G₁) (v12 v22 : G₂) (z00 z01 z10 z11 : F)
    (p01 p11 : G₂) (th00 th10 : G₁)
    (hcnew : ∀ i, i < m → cNew1 i = cOld1 i + (R1 i • u11 + R2 i • u21))
    (hdnew : ∀ j, j < n → dNew2 j = dOld2 j + (S1 j • v12 + S2 j • v22))
    (hbdold : ∀ i, i < m → bdOld i = BF i + ∑ j in Finset.range n, γ i j • dOld2 j)
    (hbdnew : ∀ i, i < m → bdNew i = BF i + ∑ j in Finset.range n, γ i j • dNew2 j)
    (hold : (∑ i in Finset.range m, e (cOld1 i) (bdOld i)) =
      e u11 p01 + e u21 p11 + e th00 v12 + e th10 v22) :
    ∑ i in Finset.range m, e (cNew1 i) (bdNew i) =
      e u11 ((p01 + ((∑ i in Finset.range m, R1 i • BF i) +
          (∑ j in Finset.range n, (∑ i in Finset.range m, γ i j * R1 i) • dOld2 j) +
          ((∑ i in Finset.range m, ∑ j in Finset.range n, γ i j * R1 i * S1 j) • v12 +
            (∑ i in Finset.range m, ∑ j in Finset.range n, γ i j * R1 i * S2 j) • v22))) +
        ((-z00) • v12 + (-z10) • v22)) +
      e u21 ((p11 + ((∑ i in Finset.range m, R2 i • BF i) +
          (∑ j in Finset.range n, (∑ i in Finset.range m, γ i j * R2 i) • dOld2 j) +
          ((∑ i in Finset.range m, ∑ j in Finset.range n, γ i j * R2 i * S1 j) • v12 +
            (∑ i in Finset.range m, ∑ j in Finset.range n, γ i j * R2 i * S2 j) • v22))) +
        ((-z01) • v12 + (-z11) • v22)) +
      e ((th00 + ∑ i in Finset.range m,
          (∑ j in Finset.range n, γ i j * S1 j) • cOld1 i) +
        (z00 • u11 + z01 • u21)) v12 +
      e ((th10 + ∑ i in Finset.range m,
          (∑ j in Finset.range n, γ i j * S2 j) • cOld1 i) +
        (z10 • u11 + z11 • u21)) v22 := by
  have hL : (∑ i in Finset.range m, e (cNew1 i) (bdNew i)) =
      ∑ i in Finset.range m,
        (e (cOld1 i) (bdOld i) +
          ((∑ j in Finset.range n,
            ((γ i j * S1 j) • e (cOld1 i) v12 + (γ i j * S2 j) • e (cOld1 i) v22)) +
          (((R1 i • e u11 (BF i) +
              ∑ j in Finset.range n, (γ i j * R1 i) • e u11 (dOld2 j)) +
            (R2 i • e u21 (BF i) +
              ∑ j in Finset.range n, (γ i j * R2 i) • e u21 (dOld2 j))) +
          ∑ j in Finset.range n,
            ((γ i j * R1 i * S1 j) • e u11 v12 + (γ i j * R1 i * S2 j) • e u11 v22 +
              ((γ i j * R2 i * S1 j) • e u21 v12 + (γ i j * R2 i * S2 j) • e u21 v22))))) := by
    refine Finset.sum_congr rfl fun i hi => ?_
    have hbdsplit : bdNew i = bdOld i +
        ∑ j in Finset.range n, γ i j • (S1 j • v12 + S2 j • v22) := by
      rw [hbdnew i (Finset.mem_range.mp hi), hbdold i (Finset.mem_range.mp hi),
        add_assoc, ← Finset.sum_add_distrib]
      congr 1
      refine Finset.sum_congr rfl fun j hj => ?_
      rw [hdnew j (Finset.mem_range.mp hj), smul_add]
    rw [hcnew i (Finset.mem_range.mp hi), hbdsplit, hp.add_left, hp.add_right,
      hp.add_right]
    have eB : e (cOld1 i) (∑ j in Finset.range n, γ i j • (S1 j • v12 + S2 j • v22)) =
        ∑ j in Finset.range n,
          ((γ i j * S1 j) • e (cOld1 i) v12 + (γ i j * S2 j) • e (cOld1 i) v22) := by
      rw [hp.sum_right]
      refine Finset.sum_congr rfl fun j hj => ?_
      simp only [hp.smul_right, hp.add_right, smul_add, smul_smul]
    have eA : e (R1 i • u11 + R2 i • u21) (bdOld i) =
        (R1 i • e u11 (BF i) +
          ∑ j in Finset.range n, (γ i j * R1 i) • e u11 (dOld2 j)) +
        (R2 i • e u21 (BF i) +
          ∑ j in Finset.range n, (γ i j * R2 i) • e u21 (dOld2 j)) := by
      rw [hbdold i (Finset.mem_range.mp hi), hp.add_left]
      congr 1
      · rw [hp.smul_left, hp.add_right, hp.sum_right, smul_add, Finset.smul_sum]
        congr 1
        refine Finset.sum_congr rfl fun j hj => ?_
        rw [hp.smul_right, smul_smul, mul_comm]
      · rw [hp.smul_left, hp.add_right, hp.sum_right, smul_add, Finset.smul_sum]
        congr 1
        refine Finset.sum_congr rfl fun j hj => ?_
        rw [hp.smul_right, smul_smul, mul_comm]
    have eT : e (R1 i • u11 + R2 i • u21)
        (∑ j in Finset.range n, γ i j • (S1 j • v12 + S2 j • v22)) =
        ∑ j in Finset.range n,
          ((γ i j * R1 i * S1 j) • e u11 v12 + (γ i j * R1 i * S2 j) • e u11 v22 +
            ((γ i j * R2 i * S1 j) • e u21 v12 + (γ i j * R2 i * S2 j) • e u21 v22)) := by
      rw [hp.add_left, hp.sum_right, hp.sum_right, ← Finset.sum_add_distrib]
      refine Finset.sum_congr rfl fun j hj => ?_
      simp only [hp.smul_left, hp.smul_right, hp.add_right, smul_add, smul_smul]
      module
    rw [eB, eA, eT]
    abel
  rw [hL]
  simp only [Finset.sum_add_distrib]
  rw [hold]
  have hsw1 : (∑ i in Finset.range m, ∑ j in Finset.range n,
      (γ i j * R1 i) • e u11 (dOld2 j)) = ∑ j in Finset.range n,
      ∑ i in Finset.range m, (γ i j * R1 i) • e u11 (dOld2 j) := Finset.sum_comm
  have hsw2 : (∑ i in Finset.range m, ∑ j in Finset.range n,
      (γ i j * R2 i) • e u21 (dOld2 j)) = ∑ j in Finset.range n,
      ∑ i in Finset.range m, (γ i j * R2 i) • e u21 (dOld2 j) := Finset.sum_comm
  rw [hsw1, hsw2]
  simp only [hp.add_right, hp.smul_right, hp.add_left, hp.smul_left,
    hp.neg_right, hp.neg_left, hp.sum_right, hp.sum_left, neg_smul,
    Finset.sum_smul, Finset.sum_add_distrib]
  abel

theorem ppe_eq3_randomize (hp : IsPairing F e) (m n : Nat)
    (γ : Nat → Nat → F) (R1 R2 S1 S2 : Nat → F)
    (cOld2 cNew2 AF : Nat → G₁) (dOld1 dNew1 : Nat → G₂)
    (u12 u22 : G₁) (v11 v21 : G₂) (z00 z01 z10 z11 : F)
    (p00 p10 : G₂) (th01 th11 : G₁)
    (hcnew : ∀ i, i < m → cNew2 i = cOld2 i + (R1 i • u12 + R2 i • u22))
    (hdnew : ∀ j, j < n → dNew1 j = dOld1 j + (S1 j • v11 + S2 j • v21))
    (hold : (∑ j in Finset.range n,
        e (AF j + ∑ i in Finset.range m, γ i j • cOld2 i) (dOld1 j)) =
      e u12 p00 + e u22 p10 + e th01 v11 + e th11 v21) :
    ∑ j in Finset.range n,
      e (AF j + ∑ i in Finset.range m, γ i j • cNew2 i) (dNew1 j) =
      e u12 ((p00 + ((∑ j in Finset.range n,
            (∑ i in Finset.range m, γ i j * R1 i) • dOld1 j) +
          ((∑ i in Finset.range m, ∑ j in Finset.range n, γ i j * R1 i * S1 j) • v11 +
            (∑ i in Finset.range m, ∑ j in Finset.range n, γ i j * R1 i * S2 j) • v21))) +
        ((-z00) • v11 + (-z10) • v21)) +
      e u22 ((p10 + ((∑ j in Finset.range n,
            (∑ i in Finset.range m, γ i j * R2 i) • dOld1 j) +
          ((∑ i in Finset.range m, ∑ j in Finset.range n, γ i j * R2 i * S1 j) • v11 +
            (∑ i in Finset.range m, ∑ j in Finset.range n, γ i j * R2 i * S2 j) • v21))) +
        ((-z01) • v11 + (-z11) • v21)) +
      e ((th01 + ((∑ j in Finset.range n, S1 j • AF j) +
          ∑ i in Finset.range m,
            (∑ j in Finset.range n, γ i j * S1 j) • cOld2 i)) +
        (z00 • u12 + z01 • u22)) v11 +
      e ((th11 + ((∑ j in Finset.range n, S2 j • AF j) +
          ∑ i in Finset.range m,
            (∑ j in Finset.range n, γ i j * S2 j) • cOld2 i)) +
        (z10 • u12 + z11 • u22)) v21 := by
  have hL : (∑ j in Finset.range n,
      e (AF j + ∑ i in Finset.range m, γ i j • cNew2 i) (dNew1 j)) =
      ∑ j in Finset.range n,
        (e (AF j + ∑ i in Finset.range m, γ i j • cOld2 i) (dOld1 j) +
          (((S1 j • e (AF j) v11 + S2 j • e (AF j) v21) +
            ∑ i in Finset.range m,
              ((γ i j * S1 j) • e (cOld2 i) v11 + (γ i j * S2 j) • e (cOld2 i) v21)) +
          ((∑ i in Finset.range m,
              ((γ i j * R1 i) • e u12 (dOld1 j) + (γ i j * R2 i) • e u22 (dOld1 j))) +
          ∑ i in Finset.range m,
            ((γ i j * R1 i * S1 j) • e u12 v11 + (γ i j * R1 i * S2 j) • e u12 v21 +
              ((γ i j * R2 i * S1 j) • e u22 v11 + (γ i j * R2 i * S2 j) • e u22 v21))))) := by
    refine Finset.sum_congr rfl fun j hj => ?_
    have hcsplit : (∑ i in Finset.range m, γ i j • cNew2 i) =
        (∑ i in Finset.range m, γ i j • cOld2 i) +
        ∑ i in Finset.range m, γ i j • (R1 i • u12 + R2 i • u22) := by
      rw [← Finset.sum_add_distrib]
      refine Finset.sum_congr rfl fun i hi => ?_
      rw [hcnew i (Finset.mem_range.mp hi), smul_add]
    rw [hdnew j (Finset.mem_range.mp hj), hcsplit, ← add_assoc, hp.add_left,
      hp.add_right (AF j + ∑ i in Finset.range m, γ i j • cOld2 i) (dOld1 j),
      hp.add_right (∑ i in Finset.range m, γ i j • (R1 i • u12 + R2 i • u22))
        (dOld1 j)]
    have ePB : e (AF j + ∑ i in Finset.range m, γ i j • cOld2 i)
        (S1 j • v11 + S2 j • v21) =
        (S1 j • e (AF j) v11 + S2 j • e (AF j) v21) +
        ∑ i in Finset.range m,
          ((γ i j * S1 j) • e (cOld2 i) v11 + (γ i j * S2 j) • e (cOld2 i) v21) := by
      rw [hp.add_left]
      congr 1
      · simp only [hp.add_right, hp.smul_right]
      · rw [hp.sum_left]
        refine Finset.sum_congr rfl fun i hi => ?_
        simp only [hp.smul_left, hp.smul_right, hp.add_right, smul_add, smul_smul]
    have eQA : e (∑ i in Finset.range m, γ i j • (R1 i • u12 + R2 i • u22))
        (dOld1 j) =
        ∑ i in Finset.range m,
          ((γ i j * R1 i) • e u12 (dOld1 j) + (γ i j * R2 i) • e u22 (dOld1 j)) := by
      rw [hp.sum_left]
      refine Finset.sum_congr rfl fun i hi => ?_
      simp only [hp.smul_left, hp.add_left, smul_add, smul_smul]
    have eQT : e (∑ i in Finset.range m, γ i j • (R1 i • u12 + R2 i • u22))
        (S1 j • v11 + S2 j • v21) =
        ∑ i in Finset.range m,
          ((γ i j * R1 i * S1 j) • e u12 v11 + (γ i j * R1 i * S2 j) • e u12 v21 +
            ((γ i j * R2 i * S1 j) • e u22 v11 + (γ i j * R2 i * S2 j) • e u22 v21)) := by
      rw [hp.sum_left]
      refine Finset.sum_congr rfl fun i hi => ?_
      simp only [hp.smul_left, hp.smul_right, hp.add_left, hp.add_right,
        smul_add, smul_smul]
    rw [ePB, eQA, eQT]
    abel
  rw [hL]
  simp only [Finset.sum_add_distrib]
  rw [hold]
  have hswa : (∑ j in Finset.range n, ∑ i in Finset.range m,
      (γ i j * S1 j) • e (cOld2 i) v11) = ∑ i in Finset.range m,
      ∑ j in Finset.range n, (γ i j * S1 j) • e (cOld2 i) v11 := Finset.sum_comm
  have hswb : (∑ j in Finset.range n, ∑ i in Finset.range m,
      (γ i j * S2 j) • e (cOld2 i) v21) = ∑ i in Finset.range m,
      ∑ j in Finset.range n, (γ i j * S2 j) • e (cOld2 i) v21 := Finset.sum_comm
  have hsw1 : (∑ j in Finset.range n, ∑ i in Finset.range m,
      (γ i j * R1 i * S1 j) • e u12 v11) = ∑ i in Finset.range m,
      ∑ j in Finset.range n, (γ i j * R1 i * S1 j) • e u12 v11 := Finset.sum_comm
  have hsw2 : (∑ j in Finset.range n, ∑ i in Finset.range m,
      (γ i j * R1 i * S2 j) • e u12 v21) = ∑ i in Finset.range m,
      ∑ j in Finset.range n, (γ i j * R1 i * S2 j) • e u12 v21 := Finset.sum_comm
  have hsw3 : (∑ j in Finset.range n, ∑ i in Finset.range m,
      (γ i j * R2 i * S1 j) • e u22 v11) = ∑ i in Finset.range m,
      ∑ j in Finset.range n, (γ i j * R2 i * S1 j) • e u22 v11 := Finset.sum_comm
  have hsw4 : (∑ j in Finset.range n, ∑ i in Finset.range m,
      (γ i j * R2 i * S2 j) • e u22 v21) = ∑ i in Finset.range m,
      ∑ j in Finset.range n, (γ i j * R2 i * S2 j) • e u22 v21 := Finset.sum_comm
  rw [hswa, hswb, hsw1, hsw2, hsw3, hsw4]
  simp only [hp.add_right, hp.smul_right, hp.add_left, hp.smul_left,
    hp.neg_right, hp.neg_left, hp.sum_right, hp.sum_left, neg_smul,
    Finset.sum_smul, Finset.sum_add_distrib]
  abel

theorem ppe_eq4_randomize (hp : IsPairing F e) (m n : Nat)
    (γ : Nat → Nat → F) (R1 R2 S1 S2 : Nat → F)
    (cOld2 cNew2 AF : Nat → G₁) (dOld2 dNew2 bdOld bdNew BF : Nat → G₂)
    (u12 u22 : G₁) (v12 v22 : G₂) (z00 z01 z10 z11 : F)
    (p01 p11 : G₂) (th01 th11 : G₁) (T : GT)
    (hcnew : ∀ i, i < m → cNew2 i = cOld2 i + (R1 i • u12 + R2 i • u22))
    (hdnew : ∀ j, j < n → dNew2 j = dOld2 j + (S1 j • v12 + S2 j • v22))
    (hbdold : ∀ i, i < m → bdOld i = BF i + ∑ j in Finset.range n, γ i j • dOld2 j)
    (hbdnew : ∀ i, i < m → bdNew i = BF i + ∑ j in Finset.range n, γ i j • dNew2 j)
    (hold : ((∑ j in Finset.range n, e (AF j) (dOld2 j)) +
        ∑ i in Finset.range m, e (cOld2 i) (bdOld i)) =
      T + e u12 p01 + e u22 p11 + e th01 v12 + e th11 v22) :
    (∑ j in Finset.range n, e (AF j) (dNew2 j)) +
      ∑ i in Finset.range m, e (cNew2 i) (bdNew i) =
      T +
      e u12 ((p01 + ((∑ i in Finset.range m, R1 i • BF i) +
          (∑ j in Finset.range n, (∑ i in Finset.range m, γ i j * R1 i) • dOld2 j) +
          ((∑ i in Finset.range m, ∑ j in Finset.range n, γ i j * R1 i * S1 j) • v12 +
            (∑ i in Finset.range m, ∑ j in Finset.range n, γ i j * R1 i * S2 j) • v22))) +
        ((-z00) • v12 + (-z10) • v22)) +
      e u22 ((p11 + ((∑ i in Finset.range m, R2 i • BF i) +
          (∑ j in Finset.range n, (∑ i in Finset.range m, γ i j * R2 i) • dOld2 j) +
          ((∑ i in Finset.range m, ∑ j in Finset.range n, γ i j * R2 i * S1 j) • v12 +
            (∑ i in Finset.range m, ∑ j in Finset.range n, γ i j * R2 i * S2 j) • v22))) +
        ((-z01) • v12 + (-z11) • v22)) +
      e ((th01 + ((∑ j in Finset.range n, S1 j • AF j) +
          ∑ i in Finset.range m,
            (∑ j in Finset.range n, γ i j * S1 j) • cOld2 i)) +
        (z00 • u12 + z01 • u22)) v12 +
      e ((th11 + ((∑ j in Finset.range n, S2 j • AF j) +
          ∑ i in Finset.range m,
            (∑ j in Finset.range n, γ i j * S2 j) • cOld2 i)) +
        (z10 • u12 + z11 • u22)) v22 := by
  have hA : (∑ j in Finset.range n, e (AF j) (dNew2 j)) =
      ∑ j in Finset.range n,
        (e (AF j) (dOld2 j) + (S1 j • e (AF j) v12 + S2 j • e (AF j) v22)) := by
    refine Finset.sum_congr rfl fun j hj => ?_
    rw [hdnew j (Finset.mem_range.mp hj)]
    simp only [hp.add_right, hp.smul_right]
  have hB : (∑ i in Finset.range m, e (cNew2 i) (bdNew i)) =
      ∑ i in Finset.range m,
        (e (cOld2 i) (bdOld i) +
          ((∑ j in Finset.range n,
            ((γ i j * S1 j) • e (cOld2 i) v12 + (γ i j * S2 j) • e (cOld2 i) v22)) +
          (((R1 i • e u12 (BF i) +
              ∑ j in Finset.range n, (γ i j * R1 i) • e u12 (dOld2 j)) +
            (R2 i • e u22 (BF i) +
              ∑ j in Finset.range n, (γ i j * R2 i) • e u22 (dOld2 j))) +
          ∑ j in Finset.range n,
            ((γ i j * R1 i * S1 j) • e u12 v12 + (γ i j * R1 i * S2 j) • e u12 v22 +
              ((γ i j * R2 i * S1 j) • e u22 v12 + (γ i j * R2 i * S2 j) • e u22 v22))))) := by
    refine Finset.sum_congr rfl fun i hi => ?_
    have hbdsplit : bdNew i = bdOld i +
        ∑ j in Finset.range n, γ i j • (S1 j • v12 + S2 j • v22) := by
      rw [hbdnew i (Finset.mem_range.mp hi), hbdold i (Finset.mem_range.mp hi),
        add_assoc, ← Finset.sum_add_distrib]
      congr 1
      refine Finset.sum_congr rfl fun j hj => ?_
      rw [hdnew j (Finset.mem_range.mp hj), smul_add]
    rw [hcnew i (Finset.mem_range.mp hi), hbdsplit, hp.add_left, hp.add_right,
      hp.add_right]
    have eB : e (cOld2 i) (∑ j in Finset.range n, γ i j • (S1 j • v12 + S2 j • v22)) =
        ∑ j in Finset.range n,
          ((γ i j * S1 j) • e (cOld2 i) v12 + (γ i j * S2 j) • e (cOld2 i) v22) := by
      rw [hp.sum_right]
      refine Finset.sum_congr rfl fun j hj => ?_
      simp only [hp.smul_right, hp.add_right, smul_add, smul_smul]
    have eA : e (R1 i • u12 + R2 i • u22) (bdOld i) =
        (R1 i • e u12 (BF i) +
          ∑ j in Finset.range n, (γ i j * R1 i) • e u12 (dOld2 j)) +
        (R2 i • e u22 (BF i) +
          ∑ j in Finset.range n, (γ i j * R2 i) • e u22 (dOld2 j)) := by
      rw [hbdold i (Finset.mem_range.mp hi), hp.add_left]
      congr 1
      · rw [hp.smul_left, hp.add_right, hp.sum_right, smul_add, Finset.smul_sum]
        congr 1
        refine Finset.sum_congr rfl fun j hj => ?_
        rw [hp.smul_right, smul_smul, mul_comm]
      · rw [hp.smul_left, hp.add_right, hp.sum_right, smul_add, Finset.smul_sum]
        congr 1
        refine Finset.sum_congr rfl fun j hj => ?_
        rw [hp.smul_right, smul_smul, mul_comm]
    have eT : e (R1 i • u12 + R2 i • u22)
        (∑ j in Finset.range n, γ i j • (S1 j • v12 + S2 j • v22)) =
        ∑ j in Finset.range n,
          ((γ i j * R1 i * S1 j) • e u12 v12 + (γ i j * R1 i * S2 j) • e u12 v22 +
            ((γ i j * R2 i * S1 j) • e u22 v12 + (γ i j * R2 i * S2 j) • e u22 v22)) := by
      rw [hp.add_left, hp.sum_right, hp.sum_right, ← Finset.sum_add_distrib]
      refine Finset.sum_congr rfl fun j hj => ?_
      simp only [hp.smul_left, hp.smul_right, hp.add_right, smul_add, smul_smul]
      module
    rw [eB, eA, eT]
    abel
  have hdA : (∑ j in Finset.range n,
      (e (AF j) (dOld2 j) + (S1 j • e (AF j) v12 + S2 j • e (AF j) v22))) =
      (∑ j in Finset.range n, e (AF j) (dOld2 j)) +
      ∑ j in Finset.range n, (S1 j • e (AF j) v12 + S2 j • e (AF j) v22) :=
    Finset.sum_add_distrib
  have hdB : (∑ i in Finset.range m,
      (e (cOld2 i) (bdOld i) +
        ((∑ j in Finset.range n,
          ((γ i j * S1 j) • e (cOld2 i) v12 + (γ i j * S2 j) • e (cOld2 i) v22)) +
        (((R1 i • e u12 (BF i) +
            ∑ j in Finset.range n, (γ i j * R1 i) • e u12 (dOld2 j)) +
          (R2 i • e u22 (BF i) +
            ∑ j in Finset.range n, (γ i j * R2 i) • e u22 (dOld2 j))) +
        ∑ j in Finset.range n,
          ((γ i j * R1 i * S1 j) • e u12 v12 + (γ i j * R1 i * S2 j) • e u12 v22 +
            ((γ i j * R2 i * S1 j) • e u22 v12 + (γ i j * R2 i * S2 j) • e u22 v22)))))) =
      (∑ i in Finset.range m, e (cOld2 i) (bdOld i)) +
      ∑ i in Finset.range m,
        ((∑ j in Finset.range n,
          ((γ i j * S1 j) • e (cOld2 i) v12 + (γ i j * S2 j) • e (cOld2 i) v22)) +
        (((R1 i • e u12 (BF i) +
            ∑ j in Finset.range n, (γ i j * R1 i) • e u12 (dOld2 j)) +
          (R2 i • e u22 (BF i) +
            ∑ j in Finset.range n, (γ i j * R2 i) • e u22 (dOld2 j))) +
        ∑ j in Finset.range n,
          ((γ i j * R1 i * S1 j) • e u12 v12 + (γ i j * R1 i * S2 j) • e u12 v22 +
            ((γ i j * R2 i * S1 j) • e u22 v12 + (γ i j * R2 i * S2 j) • e u22 v22)))) :=
    Finset.sum_add_distrib
  rw [hA, hB, hdA, hdB, add_add_add_comm, hold]
  have hsw1 : (∑ i in Finset.range m, ∑ j in Finset.range n,
      (γ i j * R1 i) • e u12 (dOld2 j)) = ∑ j in Finset.range n,
      ∑ i in Finset.range m, (γ i j * R1 i) • e u12 (dOld2 j) := Finset.sum_comm
  have hsw2 : (∑ i in Finset.range m, ∑ j in Finset.range n,
      (γ i j * R2 i) • e u22 (dOld2 j)) = ∑ j in Finset.range n,
      ∑ i in Finset.range m, (γ i j * R2 i) • e u22 (dOld2 j) := Finset.sum_comm
  simp only [Finset.sum_add_distrib]
  rw [hsw1, hsw2]
  simp only [hp.add_right, hp.smul_right, hp.add_left, hp.smul_left,
    hp.neg_right, hp.neg_left, hp.sum_right, hp.sum_left, neg_smul,
    Finset.sum_smul, Finset.sum_add_distrib]
  abel

theorem ps_randomize_equation (ps : ProofSystem F G₁ G₂ GT)
    (cks : CommitmentKeys G₁ G₂) (rs ss : List (Randomness F)) (z : Matrix F) :
    (ps.randomize cks rs ss z).equation = ps.equation := rfl

theorem ps_randomize_c (ps : ProofSystem F G₁ G₂ GT)
    (cks : CommitmentKeys G₁ G₂) (rs ss : List (Randomness F)) (z : Matrix F) :
    (ps.randomize cks rs ss z).c =
      (List.zipWith (fun ci ri => Com.randomize ci cks.u ri) ps.c rs).map
        Prod.fst := rfl

theorem ps_randomize_d (ps : ProofSystem F G₁ G₂ GT)
    (cks : CommitmentKeys G₁ G₂) (rs ss : List (Randomness F)) (z : Matrix F) :
    (ps.randomize cks rs ss z).d =
      (List.zipWith (fun dj sj => Com.randomize dj cks.v sj) ps.d ss).map
        Prod.fst := rfl

theorem ps_randomize_proof (ps : ProofSystem F G₁ G₂ GT)
    (cks : CommitmentKeys G₁ G₂) (rs ss : List (Randomness F)) (z : Matrix F) :
    (ps.randomize cks rs ss z).proof =
      Proof.randomize z cks ps.equation
        ((List.zipWith (fun ci ri => Com.randomize ci cks.u ri) ps.c rs).map
          Prod.snd)
        ((List.zipWith (fun dj sj => Com.randomize dj cks.v sj) ps.d ss).map
          Prod.snd) ps.proof := rfl

theorem randomize_zip_fst_getD {G : Type} [AddCommGroup G] [Module F G]
    (ck : CommitmentKey G) (c : List (Com G)) (rs : List (Randomness F))
    (i : Nat) (hi : i < c.length) (hir : i < rs.length) :
    ((List.zipWith (fun ci ri => Com.randomize ci ck ri) c rs).map
      Prod.fst).getD i comZero =
      ⟨(c.getD i comZero).c1 +
        ((rs.getD i Randomness.zero).r1 • ck.u1.1 +
          (rs.getD i Randomness.zero).r2 • ck.u2.1),
       (c.getD i comZero).c2 +
        ((rs.getD i Randomness.zero).r1 • ck.u1.2 +
          (rs.getD i Randomness.zero).r2 • ck.u2.2)⟩ := by
  rw [getD_map_of_lt _ _ _ (by simp [List.length_zipWith]; omega) _
    (comZero, (comZero, Randomness.zero)),
    getD_zipWith_of_lt _ _ _ _ hi hir _ comZero Randomness.zero]
  rfl

theorem randomize_zip_snd_fst_getD {G : Type} [AddCommGroup G] [Module F G]
    (ck : CommitmentKey G) (c : List (Com G)) (rs : List (Randomness F))
    (i : Nat) (hi : i < c.length) (hir : i < rs.length) :
    (((List.zipWith (fun ci ri => Com.randomize ci ck ri) c rs).map
      Prod.snd).map Prod.fst).getD i comZero = c.getD i comZero := by
  rw [getD_map_of_lt _ _ _ (by simp [List.length_zipWith]; omega) _
    (comZero, Randomness.zero),
    getD_map_of_lt _ _ _ (by simp [List.length_zipWith]; omega) _
    (comZero, (comZero, Randomness.zero)),
    getD_zipWith_of_lt _ _ _ _ hi hir _ comZero Randomness.zero]
  rfl

theorem randomize_zip_snd_snd_getD {G : Type} [AddCommGroup G] [Module F G]
    (ck : CommitmentKey G) (c : List (Com G)) (rs : List (Randomness F))
    (i : Nat) (hi : i < c.length) (hir : i < rs.length) :
    (((List.zipWith (fun ci ri => Com.randomize ci ck ri) c rs).map
      Prod.snd).map Prod.snd).getD i Randomness.zero =
      rs.getD i Randomness.zero := by
  rw [getD_map_of_lt _ _ _ (by simp [List.length_zipWith]; omega) _
    (comZero, Randomness.zero),
    getD_map_of_lt _ _ _ (by simp [List.length_zipWith]; omega) _
    (comZero, (comZero, Randomness.zero)),
    getD_zipWith_of_lt _ _ _ _ hi hir _ comZero Randomness.zero]
  rfl

theorem proof_rand_phi_get_00 (z : Matrix F) (cks : CommitmentKeys G₁ G₂)
    (equ : Equation F G₁ G₂ GT) (cr : List (Com G₁ × Randomness F))
    (ds : List (Com G₂ × Randomness F)) (p00 p01 p10 p11 : G₂)
    (th : Matrix G₁) :
    (Proof.randomize z cks equ cr ds ⟨Matrix.new22 p00 p01 p10 p11, th⟩).phi.get 0 0 =
      (p00 + ((∑ j in Finset.range (ds.map Prod.fst).length,
          (∑ i in Finset.range (cr.map Prod.snd).length,
            equ.gamma.get i j * ((cr.map Prod.snd).getD i Randomness.zero).r1) •
            ((ds.map Prod.fst).getD j comZero).c1) +
        ((t11_t12_t21_t22 (cr.map Prod.snd) (ds.map Prod.snd) equ.gamma).1 • cks.v.u1.1 +
          (t11_t12_t21_t22 (cr.map Prod.snd) (ds.map Prod.snd) equ.gamma).2.1 • cks.v.u2.1))) +
      ((-z.get 0 0) • cks.v.u1.1 + (-z.get 1 0) • cks.v.u2.1) := rfl

theorem proof_rand_phi_get_01 (z : Matrix F) (cks : CommitmentKeys G₁ G₂)
    (equ : Equation F G₁ G₂ GT) (cr : List (Com G₁ × Randomness F))
    (ds : List (Com G₂ × Randomness F)) (p00 p01 p10 p11 : G₂)
    (th : Matrix G₁) :
    (Proof.randomize z cks equ cr ds ⟨Matrix.new22 p00 p01 p10 p11, th⟩).phi.get 0 1 =
      (p01 + ((∑ i in Finset.range (min equ.b.length (cr.map Prod.snd).length),
          ((cr.map Prod.snd).getD i Randomness.zero).r1 • equ.b.getD i 0) +
        (∑ j in Finset.range (ds.map Prod.fst).length,
          (∑ i in Finset.range (cr.map Prod.snd).length,
            equ.gamma.get i j * ((cr.map Prod.snd).getD i Randomness.zero).r1) •
            ((ds.map Prod.fst).getD j comZero).c2) +
        ((t11_t12_t21_t22 (cr.map Prod.snd) (ds.map Prod.snd) equ.gamma).1 • cks.v.u1.2 +
          (t11_t12_t21_t22 (cr.map Prod.snd) (ds.map Prod.snd) equ.gamma).2.1 • cks.v.u2.2))) +
      ((-z.get 0 0) • cks.v.u1.2 + (-z.get 1 0) • cks.v.u2.2) := rfl

theorem proof_rand_phi_get_10 (z : Matrix F) (cks : CommitmentKeys G₁ G₂)
    (equ : Equation F G₁ G₂ GT) (cr : List (Com G₁ × Randomness F))
    (ds : List (Com G₂ × Randomness F)) (p00 p01 p10 p11 : G₂)
    (th : Matrix G₁) :
    (Proof.randomize z cks equ cr ds ⟨Matrix.new22 p00 p01 p10 p11, th⟩).phi.get 1 0 =
      (p10 + ((∑ j in Finset.range (ds.map Prod.fst).length,
          (∑ i in Finset.range (cr.map Prod.snd).length,
            equ.gamma.get i j * ((cr.map Prod.snd).getD i Randomness.zero).r2) •
            ((ds.map Prod.fst).getD j comZero).c1) +
        ((t11_t12_t21_t22 (cr.map Prod.snd) (ds.map Prod.snd) equ.gamma).2.2.1 • cks.v.u1.1 +
          (t11_t12_t21_t22 (cr.map Prod.snd) (ds.map Prod.snd) equ.gamma).2.2.2 • cks.v.u2.1))) +
      ((-z.get 0 1) • cks.v.u1.1 + (-z.get 1 1) • cks.v.u2.1) := rfl

theorem proof_rand_phi_get_11 (z : Matrix F) (cks : CommitmentKeys G₁ G₂)
    (equ : Equation F G₁ G₂ GT) (cr : List (Com G₁ × Randomness F))
    (ds : List (Com G₂ × Randomness F)) (p00 p01 p10 p11 : G₂)
    (th : Matrix G₁) :
    (Proof.randomize z cks equ cr ds ⟨Matrix.new22 p00 p01 p10 p11, th⟩).phi.get 1 1 =
      (p11 + ((∑ i in Finset.range (min equ.b.length (cr.map Prod.snd).length),
          ((cr.map Prod.snd).getD i Randomness.zero).r2 • equ.b.getD i 0) +
        (∑ j in Finset.range (ds.map Prod.fst).length,
          (∑ i in Finset.range (cr.map Prod.snd).length,
            equ.gamma.get i j * ((cr.map Prod.snd).getD i Randomness.zero).r2) •
            ((ds.map Prod.fst).getD j comZero).c2) +
        ((t11_t12_t21_t22 (cr.map Prod.snd) (ds.map Prod.snd) equ.gamma).2.2.1 • cks.v.u1.2 +
          (t11_t12_t21_t22 (cr.map Prod.snd) (ds.map Prod.snd) equ.gamma).2.2.2 • cks.v.u2.2))) +
      ((-z.get 0 1) • cks.v.u1.2 + (-z.get 1 1) • cks.v.u2.2) := rfl

theorem proof_rand_theta_get_00 (z : Matrix F) (cks : CommitmentKeys G₁ G₂)
    (equ : Equation F G₁ G₂ GT) (cr : List (Com G₁ × Randomness F))
    (ds : List (Com G₂ × Randomness F)) (ph : Matrix G₂)
    (q00 q01 q10 q11 : G₁) :
    (Proof.randomize z cks equ cr ds ⟨ph, Matrix.new22 q00 q01 q10 q11⟩).theta.get 0 0 =
      (q00 + ∑ i in Finset.range (cr.map Prod.fst).length,
          (∑ j in Finset.range (ds.map Prod.snd).length,
            equ.gamma.get i j * ((ds.map Prod.snd).getD j Randomness.zero).r1) •
            ((cr.map Prod.fst).getD i comZero).c1) +
      (z.get 0 0 • cks.u.u1.1 + z.get 0 1 • cks.u.u2.1) := rfl

theorem proof_rand_theta_get_01 (z : Matrix F) (cks : CommitmentKeys G₁ G₂)
    (equ : Equation F G₁ G₂ GT) (cr : List (Com G₁ × Randomness F))
    (ds : List (Com G₂ × Randomness F)) (ph : Matrix G₂)
    (q00 q01 q10 q11 : G₁) :
    (Proof.randomize z cks equ cr ds ⟨ph, Matrix.new22 q00 q01 q10 q11⟩).theta.get 0 1 =
      (q01 + ((∑ j in Finset.range (min equ.a.length (ds.map Prod.snd).length),
          ((ds.map Prod.snd).getD j Randomness.zero).r1 • equ.a.getD j 0) +
        ∑ i in Finset.range (cr.map Prod.fst).length,
          (∑ j in Finset.range (ds.map Prod.snd).length,
            equ.gamma.get i j * ((ds.map Prod.snd).getD j Randomness.zero).r1) •
            ((cr.map Prod.fst).getD i comZero).c2)) +
      (z.get 0 0 • cks.u.u1.2 + z.get 0 1 • cks.u.u2.2) := rfl

theorem proof_rand_theta_get_10 (z : Matrix F) (cks : CommitmentKeys G₁ G₂)
    (equ : Equation F G₁ G₂ GT) (cr : List (Com G₁ × Randomness F))
    (ds : List (Com G₂ × Randomness F)) (ph : Matrix G₂)
    (q00 q01 q10 q11 : G₁) :
    (Proof.randomize z cks equ cr ds ⟨ph, Matrix.new22 q00 q01 q10 q11⟩).theta.get 1 0 =
      (q10 + ∑ i in Finset.range (cr.map Prod.fst).length,
          (∑ j in Finset.range (ds.map Prod.snd).length,
            equ.gamma.get i j * ((ds.map Prod.snd).getD j Randomness.zero).r2) •
            ((cr.map Prod.fst).getD i comZero).c1) +
      (z.get 1 0 • cks.u.u1.1 + z.get 1 1 • cks.u.u2.1) := rfl

theorem proof_rand_theta_get_11 (z : Matrix F) (cks : CommitmentKeys G₁ G₂)
    (equ : Equation F G₁ G₂ GT) (cr : List (Com G₁ × Randomness F))
    (ds : List (Com G₂ × Randomness F)) (ph : Matrix G₂)
    (q00 q01 q10 q11 : G₁) :
    (Proof.randomize z cks equ cr ds ⟨ph, Matrix.new22 q00 q01 q10 q11⟩).theta.get 1 1 =
      (q11 + ((∑ j in Finset.range (min equ.a.length (ds.map Prod.snd).length),
          ((ds.map Prod.snd).getD j Randomness.zero).r2 • equ.a.getD j 0) +
        ∑ i in Finset.range (cr.map Prod.fst).length,
          (∑ j in Finset.range (ds.map Prod.snd).length,
            equ.gamma.get i j * ((ds.map Prod.snd).getD j Randomness.zero).r2) •
            ((cr.map Prod.fst).getD i comZero).c2)) +
      (z.get 1 0 • cks.u.u1.2 + z.get 1 1 • cks.u.u2.2) := rfl

theorem proof_rand_phi_dim (z : Matrix F) (cks : CommitmentKeys G₁ G₂)
    (equ : Equation F G₁ G₂ GT) (cr : List (Com G₁ × Randomness F))
    (ds : List (Com G₂ × Randomness F)) (pf : Proof G₁ G₂) :
    (Proof.randomize z cks equ cr ds pf).phi.dim = (pf.phi.dim.1, pf.phi.dim.2) := rfl

theorem proof_rand_theta_dim (z : Matrix F) (cks : CommitmentKeys G₁ G₂)
    (equ : Equation F G₁ G₂ GT) (cr : List (Com G₁ × Randomness F))
    (ds : List (Com G₂ × Randomness F)) (pf : Proof G₁ G₂) :
    (Proof.randomize z cks equ cr ds pf).theta.dim = (pf.theta.dim.1, pf.theta.dim.2) := rfl

theorem randomize_verify_aux [DecidableEq GT] (hp : IsPairing F e)
    (cks : CommitmentKeys G₁ G₂) (ps : ProofSystem F G₁ G₂ GT)
    (rs ss : List (Randomness F)) (z : Matrix F)
    (hr : rs.length = ps.c.length) (hs : ss.length = ps.d.length)
    (hwfp : ps.proof.phi.WF) (hwft : ps.proof.theta.WF)
    (hv : ps.equation.verify e cks ps.c ps.d ps.proof = true) :
    (ps.randomize cks rs ss z).equation.verify e cks
      (ps.randomize cks rs ss z).c (ps.randomize cks rs ss z).d
      (ps.randomize cks rs ss z).proof = true := by
  rw [verify_true_iff] at hv
  obtain ⟨hdim, h1, h2, h3, h4⟩ := hv
  obtain ⟨hal, hbl, hcl, hdl, hPhi, hTheta⟩ := hdim
  have hphiEq := Matrix.eq_new22 ps.proof.phi hwfp hPhi
  have hthEq := Matrix.eq_new22 ps.proof.theta hwft hTheta
  have hproof : ps.proof =
      ⟨Matrix.new22 (ps.proof.phi.get 0 0) (ps.proof.phi.get 0 1)
        (ps.proof.phi.get 1 0) (ps.proof.phi.get 1 1),
       Matrix.new22 (ps.proof.theta.get 0 0) (ps.proof.theta.get 0 1)
        (ps.proof.theta.get 1 0) (ps.proof.theta.get 1 1)⟩ := by
    rw [← hphiEq, ← hthEq]
  have hcnew1 : ∀ i, i < ps.c.length →
      (((List.zipWith (fun ci ri => Com.randomize ci cks.u ri) ps.c rs).map
        Prod.fst).getD i comZero).c1 =
      (ps.c.getD i comZero).c1 +
        ((rs.getD i Randomness.zero).r1 • cks.u.u1.1 +
          (rs.getD i Randomness.zero).r2 • cks.u.u2.1) := by
    intro i hi
    rw [randomize_zip_fst_getD cks.u ps.c rs i hi (by rw [hr]; exact hi)]
  have hcnew2 : ∀ i, i < ps.c.length →
      (((List.zipWith (fun ci ri => Com.randomize ci cks.u ri) ps.c rs).map
        Prod.fst).getD i comZero).c2 =
      (ps.c.getD i comZero).c2 +
        ((rs.getD i Randomness.zero).r1 • cks.u.u1.2 +
          (rs.getD i Randomness.zero).r2 • cks.u.u2.2) := by
    intro i hi
    rw [randomize_zip_fst_getD cks.u ps.c rs i hi (by rw [hr]; exact hi)]
  have hdnew1 : ∀ j, j < ps.d.length →
      (((List.zipWith (fun dj sj => Com.randomize dj cks.v sj) ps.d ss).map
        Prod.fst).getD j comZero).c1 =
      (ps.d.getD j comZero).c1 +
        ((ss.getD j Randomness.zero).r1 • cks.v.u1.1 +
          (ss.getD j Randomness.zero).r2 • cks.v.u2.1) := by
    intro j hj
    rw [randomize_zip_fst_getD cks.v ps.d ss j hj (by rw [hs]; exact hj)]
  have hdnew2 : ∀ j, j < ps.d.length →
      (((List.zipWith (fun dj sj => Com.randomize dj cks.v sj) ps.d ss).map
        Prod.fst).getD j comZero).c2 =
      (ps.d.getD j comZero).c2 +
        ((ss.getD j Randomness.zero).r1 • cks.v.u1.2 +
          (ss.getD j Randomness.zero).r2 • cks.v.u2.2) := by
    intro j hj
    rw [randomize_zip_fst_getD cks.v ps.d ss j hj (by rw [hs]; exact hj)]
  have ht11 : (t11_t12_t21_t22
      (((List.zipWith (fun ci ri => Com.randomize ci cks.u ri) ps.c rs).map
        Prod.snd).map Prod.snd)
      (((List.zipWith (fun dj sj => Com.randomize dj cks.v sj) ps.d ss).map
        Prod.snd).map Prod.snd) ps.equation.gamma).1 =
      ∑ i in Finset.range ps.c.length, ∑ j in Finset.range ps.d.length,
        ps.equation.gamma.get i j * (rs.getD i Randomness.zero).r1 *
          (ss.getD j Randomness.zero).r1 := by
    unfold t11_t12_t21_t22
    simp only [List.length_map, List.length_zipWith, hr, hs, Nat.min_self]
    refine Finset.sum_congr rfl fun i hi => Finset.sum_congr rfl fun j hj => ?_
    rw [randomize_zip_snd_snd_getD cks.u ps.c rs i (Finset.mem_range.mp hi)
        (by rw [hr]; exact Finset.mem_range.mp hi),
      randomize_zip_snd_snd_getD cks.v ps.d ss j (Finset.mem_range.mp hj)
        (by rw [hs]; exact Finset.mem_range.mp hj)]
  have ht12 : (t11_t12_t21_t22
      (((List.zipWith (fun ci ri => Com.randomize ci cks.u ri) ps.c rs).map
        Prod.snd).map Prod.snd)
      (((List.zipWith (fun dj sj => Com.randomize dj cks.v sj) ps.d ss).map
        Prod.snd).map Prod.snd) ps.equation.gamma).2.1 =
      ∑ i in Finset.range ps.c.length, ∑ j in Finset.range ps.d.length,
        ps.equation.gamma.get i j * (rs.getD i Randomness.zero).r1 *
          (ss.getD j Randomness.zero).r2 := by
    unfold t11_t12_t21_t22
    simp only [List.length_map, List.length_zipWith, hr, hs, Nat.min_self]
    refine Finset.sum_congr rfl fun i hi => Finset.sum_congr rfl fun j hj => ?_
    rw [randomize_zip_snd_snd_getD cks.u ps.c rs i (Finset.mem_range.mp hi)
        (by rw [hr]; exact Finset.mem_range.mp hi),
      randomize_zip_snd_snd_getD cks.v ps.d ss j (Finset.mem_range.mp hj)
        (by rw [hs]; exact Finset.mem_range.mp hj)]
  have ht21 : (t11_t12_t21_t22
      (((List.zipWith (fun ci ri => Com.randomize ci cks.u ri) ps.c rs).map
        Prod.snd).map Prod.snd)
      (((List.zipWith (fun dj sj => Com.randomize dj cks.v sj) ps.d ss).map
        Prod.snd).map Prod.snd) ps.equation.gamma).2.2.1 =
      ∑ i in Finset.range ps.c.length, ∑ j in Finset.range ps.d.length,
        ps.equation.gamma.get i j * (rs.getD i Randomness.zero).r2 *
          (ss.getD j Randomness.zero).r1 := by
    unfold t11_t12_t21_t22
    simp only [List.length_map, List.length_zipWith, hr, hs, Nat.min_self]
    refine Finset.sum_congr rfl fun i hi => Finset.sum_congr rfl fun j hj => ?_
    rw [randomize_zip_snd_snd_getD cks.u ps.c rs i (Finset.mem_range.mp hi)
        (by rw [hr]; exact Finset.mem_range.mp hi),
      randomize_zip_snd_snd_getD cks.v ps.d ss j (Finset.mem_range.mp hj)
        (by rw [hs]; exact Finset.mem_range.mp hj)]
  have ht22 : (t11_t12_t21_t22
      (((List.zipWith (fun ci ri => Com.randomize ci cks.u ri) ps.c rs).map
        Prod.snd).map Prod.snd)
      (((List.zipWith (fun dj sj => Com.randomize dj cks.v sj) ps.d ss).map
        Prod.snd).map Prod.snd) ps.equation.gamma).2.2.2 =
      ∑ i in Finset.range ps.c.length, ∑ j in Finset.range ps.d.length,
        ps.equation.gamma.get i j * (rs.getD i Randomness.zero).r2 *
          (ss.getD j Randomness.zero).r2 := by
    unfold t11_t12_t21_t22
    simp only [List.length_map, List.length_zipWith, hr, hs, Nat.min_self]
    refine Finset.sum_congr rfl fun i hi => Finset.sum_congr rfl fun j hj => ?_
    rw [randomize_zip_snd_snd_getD cks.u ps.c rs i (Finset.mem_range.mp hi)
        (by rw [hr]; exact Finset.mem_range.mp hi),
      randomize_zip_snd_snd_getD cks.v ps.d ss j (Finset.mem_range.mp hj)
        (by rw [hs]; exact Finset.mem_range.mp hj)]
  have hblen : ps.equation.b.length = ps.c.length := by rw [hbl, ← hcl]
  have halen : ps.equation.a.length = ps.d.length := by rw [hal, ← hdl]
  have hdp1 : (∑ j in Finset.range ps.d.length,
      (∑ i in Finset.range ps.c.length, ps.equation.gamma.get i j *
        ((((List.zipWith (fun ci ri => Com.randomize ci cks.u ri) ps.c rs).map
          Prod.snd).map Prod.snd).getD i Randomness.zero).r1) •
        ((((List.zipWith (fun dj sj => Com.randomize dj cks.v sj) ps.d ss).map
          Prod.snd).map Prod.fst).getD j comZero).c1) =
      ∑ j in Finset.range ps.d.length,
        (∑ i in Finset.range ps.c.length,
          ps.equation.gamma.get i j * (rs.getD i Randomness.zero).r1) •
        (ps.d.getD j comZero).c1 := by
    refine Finset.sum_congr rfl fun j hj => ?_
    rw [randomize_zip_snd_fst_getD cks.v ps.d ss j (Finset.mem_range.mp hj)
        (by rw [hs]; exact Finset.mem_range.mp hj)]
    congr 1
    refine Finset.sum_congr rfl fun i hi => ?_
    rw [randomize_zip_snd_snd_getD cks.u ps.c rs i (Finset.mem_range.mp hi)
        (by rw [hr]; exact Finset.mem_range.mp hi)]
  have hdp2 : (∑ j in Finset.range ps.d.length,
      (∑ i in Finset.range ps.c.length, ps.equation.gamma.get i j *
        ((((List.zipWith (fun ci ri => Com.randomize ci cks.u ri) ps.c rs).map
          Prod.snd).map Prod.snd).getD i Randomness.zero).r2) •
        ((((List.zipWith (fun dj sj => Com.randomize dj cks.v sj) ps.d ss).map
          Prod.snd).map Prod.fst).getD j comZero).c1) =
      ∑ j in Finset.range ps.d.length,
        (∑ i in Finset.range ps.c.length,
          ps.equation.gamma.get i j * (rs.getD i Randomness.zero).r2) •
        (ps.d.getD j comZero).c1 := by
    refine Finset.sum_congr rfl fun j hj => ?_
    rw [randomize_zip_snd_fst_getD cks.v ps.d ss j (Finset.mem_range.mp hj)
        (by rw [hs]; exact Finset.mem_range.mp hj)]
    congr 1
    refine Finset.sum_congr rfl fun i hi => ?_
    rw [randomize_zip_snd_snd_getD cks.u ps.c rs i (Finset.mem_range.mp hi)
        (by rw [hr]; exact Finset.mem_range.mp hi)]
  have hdp1b : (∑ j in Finset.range ps.d.length,
      (∑ i in Finset.range ps.c.length, ps.equation.gamma.get i j *
        ((((List.zipWith (fun ci ri => Com.randomize ci cks.u ri) ps.c rs).map
          Prod.snd).map Prod.snd).getD i Randomness.zero).r1) •
        ((((List.zipWith (fun dj sj => Com.randomize dj cks.v sj) ps.d ss).map
          Prod.snd).map Prod.fst).getD j comZero).c2) =
      ∑ j in Finset.range ps.d.length,
        (∑ i in Finset.range ps.c.length,
          ps.equation.gamma.get i j * (rs.getD i Randomness.zero).r1) •
        (ps.d.getD j comZero).c2 := by
    refine Finset.sum_congr rfl fun j hj => ?_
    rw [randomize_zip_snd_fst_getD cks.v ps.d ss j (Finset.mem_range.mp hj)
        (by rw [hs]; exact Finset.mem_range.mp hj)]
    congr 1
    refine Finset.sum_congr rfl fun i hi => ?_
    rw [randomize_zip_snd_snd_getD cks.u ps.c rs i (Finset.mem_range.mp hi)
        (by rw [hr]; exact Finset.mem_range.mp hi)]
  have hdp2b : (∑ j in Finset.range ps.d.length,
      (∑ i in Finset.range ps.c.length, ps.equation.gamma.get i j *
        ((((List.zipWith (fun ci ri => Com.randomize ci cks.u ri) ps.c rs).map
          Prod.snd).map Prod.snd).getD i Randomness.zero).r2) •
        ((((List.zipWith (fun dj sj => Com.randomize dj cks.v sj) ps.d ss).map
          Prod.snd).map Prod.fst).getD j comZero).c2) =
      ∑ j in Finset.range ps.d.length,
        (∑ i in Finset.range ps.c.length,
          ps.equation.gamma.get i j * (rs.getD i Randomness.zero).r2) •
        (ps.d.getD j comZero).c2 := by
    refine Finset.sum_congr rfl fun j hj => ?_
    rw [randomize_zip_snd_fst_getD cks.v ps.d ss j (Finset.mem_range.mp hj)
        (by rw [hs]; exact Finset.mem_range.mp hj)]
    congr 1
    refine Finset.sum_congr rfl fun i hi => ?_
    rw [randomize_zip_snd_snd_getD cks.u ps.c rs i (Finset.mem_range.mp hi)
        (by rw [hr]; exact Finset.mem_range.mp hi)]
  have hth1 : (∑ i in Finset.range ps.c.length,
      (∑ j in Finset.range ps.d.length, ps.equation.gamma.get i j *
        ((((List.zipWith (fun dj sj => Com.randomize dj cks.v sj) ps.d ss).map
          Prod.snd).map Prod.snd).getD j Randomness.zero).r1) •
        ((((List.zipWith (fun ci ri => Com.randomize ci cks.u ri) ps.c rs).map
          Prod.snd).map Prod.fst).getD i comZero).c1) =
      ∑ i in Finset.range ps.c.length,
        (∑ j in Finset.range ps.d.length,
          ps.equation.gamma.get i j * (ss.getD j Randomness.zero).r1) •
        (ps.c.getD i comZero).c1 := by
    refine Finset.sum_congr rfl fun i hi => ?_
    rw [randomize_zip_snd_fst_getD cks.u ps.c rs i (Finset.mem_range.mp hi)
        (by rw [hr]; exact Finset.mem_range.mp hi)]
    congr 1
    refine Finset.sum_congr rfl fun j hj => ?_
    rw [randomize_zip_snd_snd_getD cks.v ps.d ss j (Finset.mem_range.mp hj)
        (by rw [hs]; exact Finset.mem_range.mp hj)]
  have hth2 : (∑ i in Finset.range ps.c.length,
      (∑ j in Finset.range ps.d.length, ps.equation.gamma.get i j *
        ((((List.zipWith (fun dj sj => Com.randomize dj cks.v sj) ps.d ss).map
          Prod.snd).map Prod.snd).getD j Randomness.zero).r2) •
        ((((List.zipWith (fun ci ri => Com.randomize ci cks.u ri) ps.c rs).map
          Prod.snd).map Prod.fst).getD i comZero).c1) =
      ∑ i in Finset.range ps.c.length,
        (∑ j in Finset.range ps.d.length,
          ps.equation.gamma.get i j * (ss.getD j Randomness.zero).r2) •
        (ps.c.getD i comZero).c1 := by
    refine Finset.sum_congr rfl fun i hi => ?_
    rw [randomize_zip_snd_fst_getD cks.u ps.c rs i (Finset.mem_range.mp hi)
        (by rw [hr]; exact Finset.mem_range.mp hi)]
    congr 1
    refine Finset.sum_congr rfl fun j hj => ?_
    rw [randomize_zip_snd_snd_getD cks.v ps.d ss j (Finset.mem_range.mp hj)
        (by rw [hs]; exact Finset.mem_range.mp hj)]
  have hthc21 : (∑ i in Finset.range ps.c.length,
      (∑ j in Finset.range ps.d.length, ps.equation.gamma.get i j *
        ((((List.zipWith (fun dj sj => Com.randomize dj cks.v sj) ps.d ss).map
          Prod.snd).map Prod.snd).getD j Randomness.zero).r1) •
        ((((List.zipWith (fun ci ri => Com.randomize ci cks.u ri) ps.c rs).map
          Prod.snd).map Prod.fst).getD i comZero).c2) =
      ∑ i in Finset.range ps.c.length,
        (∑ j in Finset.range ps.d.length,
          ps.equation.gamma.get i j * (ss.getD j Randomness.zero).r1) •
        (ps.c.getD i comZero).c2 := by
    refine Finset.sum_congr rfl fun i hi => ?_
    rw [randomize_zip_snd_fst_getD cks.u ps.c rs i (Finset.mem_range.mp hi)
        (by rw [hr]; exact Finset.mem_range.mp hi)]
    congr 1
    refine Finset.sum_congr rfl fun j hj => ?_
    rw [randomize_zip_snd_snd_getD cks.v ps.d ss j (Finset.mem_range.mp hj)
        (by rw [hs]; exact Finset.mem_range.mp hj)]
  have hthc22 : (∑ i in Finset.range ps.c.length,
      (∑ j in Finset.range ps.d.length, ps.equation.gamma.get i j *
        ((((List.zipWith (fun dj sj => Com.randomize dj cks.v sj) ps.d ss).map
          Prod.snd).map Prod.snd).getD j Randomness.zero).r2) •
        ((((List.zipWith (fun ci ri => Com.randomize ci cks.u ri) ps.c rs).map
          Prod.snd).map Prod.fst).getD i comZero).c2) =
      ∑ i in Finset.range ps.c.length,
        (∑ j in Finset.range ps.d.length,
          ps.equation.gamma.get i j * (ss.getD j Randomness.zero).r2) •
        (ps.c.getD i comZero).c2 := by
    refine Finset.sum_congr rfl fun i hi => ?_
    rw [randomize_zip_snd_fst_getD cks.u ps.c rs i (Finset.mem_range.mp hi)
        (by rw [hr]; exact Finset.mem_range.mp hi)]
    congr 1
    refine Finset.sum_congr rfl fun j hj => ?_
    rw [randomize_zip_snd_snd_getD cks.v ps.d ss j (Finset.mem_range.mp hj)
        (by rw [hs]; exact Finset.mem_range.mp hj)]
  have hbp1 : (∑ i in Finset.range ps.c.length,
      ((((List.zipWith (fun ci ri => Com.randomize ci cks.u ri) ps.c rs).map
        Prod.snd).map Prod.snd).getD i Randomness.zero).r1 •
        ps.equation.b.getD i 0) =
      ∑ i in Finset.range ps.c.length,
        (rs.getD i Randomness.zero).r1 • ps.equation.b.getD i 0 := by
    refine Finset.sum_congr rfl fun i hi => ?_
    rw [randomize_zip_snd_snd_getD cks.u ps.c rs i (Finset.mem_range.mp hi)
        (by rw [hr]; exact Finset.mem_range.mp hi)]
  have hbp2 : (∑ i in Finset.range ps.c.length,
      ((((List.zipWith (fun ci ri => Com.randomize ci cks.u ri) ps.c rs).map
        Prod.snd).map Prod.snd).getD i Randomness.zero).r2 •
        ps.equation.b.getD i 0) =
      ∑ i in Finset.range ps.c.length,
        (rs.getD i Randomness.zero).r2 • ps.equation.b.getD i 0 := by
    refine Finset.sum_congr rfl fun i hi => ?_
    rw [randomize_zip_snd_snd_getD cks.u ps.c rs i (Finset.mem_range.mp hi)
        (by rw [hr]; exact Finset.mem_range.mp hi)]
  have hap1 : (∑ j in Finset.range ps.d.length,
      ((((List.zipWith (fun dj sj => Com.randomize dj cks.v sj) ps.d ss).map
        Prod.snd).map Prod.snd).getD j Randomness.zero).r1 •
        ps.equation.a.getD j 0) =
      ∑ j in Finset.range ps.d.length,
        (ss.getD j Randomness.zero).r1 • ps.equation.a.getD j 0 := by
    refine Finset.sum_congr rfl fun j hj => ?_
    rw [randomize_zip_snd_snd_getD cks.v ps.d ss j (Finset.mem_range.mp hj)
        (by rw [hs]; exact Finset.mem_range.mp hj)]
  have hap2 : (∑ j in Finset.range ps.d.length,
      ((((List.zipWith (fun dj sj => Com.randomize dj cks.v sj) ps.d ss).map
        Prod.snd).map Prod.snd).getD j Randomness.zero).r2 •
        ps.equation.a.getD j 0) =
      ∑ j in Finset.range ps.d.length,
        (ss.getD j Randomness.zero).r2 • ps.equation.a.getD j 0 := by
    refine Finset.sum_congr rfl fun j hj => ?_
    rw [randomize_zip_snd_snd_getD cks.v ps.d ss j (Finset.mem_range.mp hj)
        (by rw [hs]; exact Finset.mem_range.mp hj)]
  have hbdold : ∀ i, i < ps.c.length →
      ((ps.equation.bd ps.c ps.d).getD i 0) =
      ps.equation.b.getD i 0 +
        ∑ j in Finset.range ps.d.length,
          ps.equation.gamma.get i j • (ps.d.getD j comZero).c2 := by
    intro i hi
    unfold Equation.bd
    rw [getD_range_map_of_lt _ _ _ hi 0]
  have hbdnew : ∀ i, i < ps.c.length →
      ((ps.equation.bd
        ((List.zipWith (fun ci ri => Com.randomize ci cks.u ri) ps.c rs).map
          Prod.fst)
        ((List.zipWith (fun dj sj => Com.randomize dj cks.v sj) ps.d ss).map
          Prod.fst)).getD i 0) =
      ps.equation.b.getD i 0 +
        ∑ j in Finset.range ps.d.length,
          ps.equation.gamma.get i j •
            ((((List.zipWith (fun dj sj => Com.randomize dj cks.v sj) ps.d ss).map
              Prod.fst).getD j comZero)).c2 := by
    intro i hi
    unfold Equation.bd
    rw [getD_range_map_of_lt _ _ _
      (by simp only [List.length_map, List.length_zipWith, hr, Nat.min_self]; exact hi) 0]
    simp only [List.length_map, List.length_zipWith, hs, Nat.min_self]
  rw [verify_true_iff]
  refine ⟨?_, ?_, ?_, ?_, ?_⟩
  · refine ⟨?_, ?_, ?_, ?_, ?_, ?_⟩ <;>
      simp [ps_randomize_equation, ps_randomize_c, ps_randomize_d,
        ps_randomize_proof, proof_rand_phi_dim, proof_rand_theta_dim,
        List.length_map, List.length_zipWith, hr, hs, hal, hbl, hcl, hdl,
        hPhi, hTheta]
  · -- identity 1
    unfold Equation.lhs1 Equation.rhs1
    simp only [ps_randomize_equation, ps_randomize_c, ps_randomize_d,
      ps_randomize_proof]
    rw [hproof]
    simp only [proof_rand_phi_get_00, proof_rand_phi_get_10,
      proof_rand_theta_get_00, proof_rand_theta_get_10]
    simp only [List.length_map, List.length_zipWith, hr, hs, Nat.min_self]
    rw [ht11, ht12, ht21, ht22, hdp1, hdp2, hth1, hth2]
    exact ppe_eq1_randomize hp ps.c.length ps.d.length
      (fun i j => ps.equation.gamma.get i j)
      (fun i => (rs.getD i Randomness.zero).r1)
      (fun i => (rs.getD i Randomness.zero).r2)
      (fun j => (ss.getD j Randomness.zero).r1)
      (fun j => (ss.getD j Randomness.zero).r2)
      (fun i => (ps.c.getD i comZero).c1)
      (fun i => (((List.zipWith (fun ci ri => Com.randomize ci cks.u ri) ps.c rs).map
        Prod.fst).getD i comZero).c1)
      (fun j => (ps.d.getD j comZero).c1)
      (fun j => (((List.zipWith (fun dj sj => Com.randomize dj cks.v sj) ps.d ss).map
        Prod.fst).getD j comZero).c1)
      cks.u.u1.1 cks.u.u2.1 cks.v.u1.1 cks.v.u2.1
      (z.get 0 0) (z.get 0 1) (z.get 1 0) (z.get 1 1)
      (ps.proof.phi.get 0 0) (ps.proof.phi.get 1 0)
      (ps.proof.theta.get 0 0) (ps.proof.theta.get 1 0)
      hcnew1 hdnew1 h1
  · -- identity 2
    unfold Equation.lhs2 Equation.rhs2
    simp only [ps_randomize_equation, ps_randomize_c, ps_randomize_d,
      ps_randomize_proof]
    rw [hproof]
    simp only [proof_rand_phi_get_01, proof_rand_phi_get_11,
      proof_rand_theta_get_00, proof_rand_theta_get_10]
    simp only [List.length_map, List.length_zipWith, hr, hs, hblen,
      Nat.min_self]
    rw [ht11, ht12, ht21, ht22, hdp1b, hdp2b, hth1, hth2, hbp1, hbp2]
    exact ppe_eq2_randomize hp ps.c.length ps.d.length
      (fun i j => ps.equation.gamma.get i j)
      (fun i => (rs.getD i Randomness.zero).r1)
      (fun i => (rs.getD i Randomness.zero).r2)
      (fun j => (ss.getD j Randomness.zero).r1)
      (fun j => (ss.getD j Randomness.zero).r2)
      (fun i => (ps.c.getD i comZero).c1)
      (fun i => (((List.zipWith (fun ci ri => Com.randomize ci cks.u ri) ps.c rs).map
        Prod.fst).getD i comZero).c1)
      (fun j => (ps.d.getD j comZero).c2)
      (fun j => (((List.zipWith (fun dj sj => Com.randomize dj cks.v sj) ps.d ss).map
        Prod.fst).getD j comZero).c2)
      (fun i => (ps.equation.bd ps.c ps.d).getD i 0)
      (fun i => (ps.equation.bd
        ((List.zipWith (fun ci ri => Com.randomize ci cks.u ri) ps.c rs).map
          Prod.fst)
        ((List.zipWith (fun dj sj => Com.randomize dj cks.v sj) ps.d ss).map
          Prod.fst)).getD i 0)
      (fun i => ps.equation.b.getD i 0)
      cks.u.u1.1 cks.u.u2.1 cks.v.u1.2 cks.v.u2.2
      (z.get 0 0) (z.get 0 1) (z.get 1 0) (z.get 1 1)
      (ps.proof.phi.get 0 1) (ps.proof.phi.get 1 1)
      (ps.proof.theta.get 0 0) (ps.proof.theta.get 1 0)
      hcnew1 hdnew2 hbdold hbdnew h2
  · -- identity 3
    unfold Equation.lhs3 Equation.rhs3
    simp only [ps_randomize_equation, ps_randomize_c, ps_randomize_d,
      ps_randomize_proof]
    rw [hproof]
    simp only [proof_rand_phi_get_00, proof_rand_phi_get_10,
      proof_rand_theta_get_01, proof_rand_theta_get_11]
    simp only [List.length_map, List.length_zipWith, hr, hs, halen,
      Nat.min_self]
    rw [ht11, ht12, ht21, ht22, hdp1, hdp2, hthc21, hthc22, hap1, hap2]
    exact ppe_eq3_randomize hp ps.c.length ps.d.length
      (fun i j => ps.equation.gamma.get i j)
      (fun i => (rs.getD i Randomness.zero).r1)
      (fun i => (rs.getD i Randomness.zero).r2)
      (fun j => (ss.getD j Randomness.zero).r1)
      (fun j => (ss.getD j Randomness.zero).r2)
      (fun i => (ps.c.getD i comZero).c2)
      (fun i => (((List.zipWith (fun ci ri => Com.randomize ci cks.u ri) ps.c rs).map
        Prod.fst).getD i comZero).c2)
      (fun j => ps.equation.a.getD j 0)
      (fun j => (ps.d.getD j comZero).c1)
      (fun j => (((List.zipWith (fun dj sj => Com.randomize dj cks.v sj) ps.d ss).map
        Prod.fst).getD j comZero).c1)
      cks.u.u1.2 cks.u.u2.2 cks.v.u1.1 cks.v.u2.1
      (z.get 0 0) (z.get 0 1) (z.get 1 0) (z.get 1 1)
      (ps.proof.phi.get 0 0) (ps.proof.phi.get 1 0)
      (ps.proof.theta.get 0 1) (ps.proof.theta.get 1 1)
      hcnew2 hdnew1 h3
  · -- identity 4
    unfold Equation.lhs4 Equation.rhs4 at h4 ⊢
    simp only [halen, Nat.min_self] at h4
    simp only [ps_randomize_equation, ps_randomize_c, ps_randomize_d,
      ps_randomize_proof]
    rw [hproof]
    simp only [proof_rand_phi_get_01, proof_rand_phi_get_11,
      proof_rand_theta_get_01, proof_rand_theta_get_11]
    simp only [List.length_map, List.length_zipWith, hr, hs, hblen, halen,
      Nat.min_self]
    rw [ht11, ht12, ht21, ht22, hdp1b, hdp2b, hthc21, hthc22, hbp1, hbp2,
      hap1, hap2]
    exact ppe_eq4_randomize hp ps.c.length ps.d.length
      (fun i j => ps.equation.gamma.get i j)
      (fun i => (rs.getD i Randomness.zero).r1)
      (fun i => (rs.getD i Randomness.zero).r2)
      (fun j => (ss.getD j Randomness.zero).r1)
      (fun j => (ss.getD j Randomness.zero).r2)
      (fun i => (ps.c.getD i comZero).c2)
      (fun i => (((List.zipWith (fun ci ri => Com.randomize ci cks.u ri) ps.c rs).map
        Prod.fst).getD i comZero).c2)
      (fun j => ps.equation.a.getD j 0)
      (fun j => (ps.d.getD j comZero).c2)
      (fun j => (((List.zipWith (fun dj sj => Com.randomize dj cks.v sj) ps.d ss).map
        Prod.fst).getD j comZero).c2)
      (fun i => (ps.equation.bd ps.c ps.d).getD i 0)
      (fun i => (ps.equation.bd
        ((List.zipWith (fun ci ri => Com.randomize ci cks.u ri) ps.c rs).map
          Prod.fst)
        ((List.zipWith (fun dj sj => Com.randomize dj cks.v sj) ps.d ss).map
          Prod.fst)).getD i 0)
      (fun i => ps.equation.b.getD i 0)
      cks.u.u1.2 cks.u.u2.2 cks.v.u1.2 cks.v.u2.2
      (z.get 0 0) (z.get 0 1) (z.get 1 0) (z.get 1 1)
      (ps.proof.phi.get 0 1) (ps.proof.phi.get 1 1)
      (ps.proof.theta.get 0 1) (ps.proof.theta.get 1 1)
      ps.equation.target
      hcnew2 hdnew2 hbdold hbdnew h4

/-- `Matrix.new22` always satisfies the well-formedness predicate. -/
theorem matrix_new22_WF {α : Type} (a b c d : α) : (Matrix.new22 a b c d).WF := by
  refine ⟨rfl, ?_⟩
  intro row h
  simp only [Matrix.new22, List.mem_cons, List.not_mem_nil, or_false] at h
  rcases h with h | h <;> subst h <;> rfl

/-- The `φ` matrix produced by `Proof::new` is well-formed. -/
theorem proof_new_phi_WF (z : Matrix F) (cks : CommitmentKeys G₁ G₂)
    (equ : Equation F G₁ G₂ GT) (x : List (Variable F G₁))
    (y : List (Variable F G₂)) : (Proof.new z cks equ x y).phi.WF :=
  matrix_new22_WF _ _ _ _

/-- The `θ` matrix produced by `Proof::new` is well-formed. -/
theorem proof_new_theta_WF (z : Matrix F) (cks : CommitmentKeys G₁ G₂)
    (equ : Equation F G₁ G₂ GT) (x : List (Variable F G₁))
    (y : List (Variable F G₂)) : (Proof.new z cks equ x y).theta.WF :=
  matrix_new22_WF _ _ _ _

/-- The `φ` matrix produced by `Proof::randomize` on a literal 2×2 proof is
well-formed. -/
theorem proof_rand_phi_WF (z : Matrix F) (cks : CommitmentKeys G₁ G₂)
    (equ : Equation F G₁ G₂ GT) (cr : List (Com G₁ × Randomness F))
    (ds : List (Com G₂ × Randomness F)) (p00 p01 p10 p11 : G₂)
    (th : Matrix G₁) :
    (Proof.randomize z cks equ cr ds
      ⟨Matrix.new22 p00 p01 p10 p11, th⟩).phi.WF :=
  matrix_new22_WF _ _ _ _

/-- The `θ` matrix produced by `Proof::randomize` on a literal 2×2 proof is
well-formed. -/
theorem proof_rand_theta_WF (z : Matrix F) (cks : CommitmentKeys G₁ G₂)
    (equ : Equation F G₁ G₂ GT) (cr : List (Com G₁ × Randomness F))
    (ds : List (Com G₂ × Randomness F)) (ph : Matrix G₂)
    (q00 q01 q10 q11 : G₁) :
    (Proof.randomize z cks equ cr ds
      ⟨ph, Matrix.new22 q00 q01 q10 q11⟩).theta.WF :=
  matrix_new22_WF _ _ _ _

/-- `ProofSystem::randomize` preserves the length of `c` when the
randomness list matches. -/
theorem ps_randomize_c_length (ps : ProofSystem F G₁ G₂ GT)
    (cks : CommitmentKeys G₁ G₂) (rs ss : List (Randomness F)) (z : Matrix F)
    (hr : rs.length = ps.c.length) :
    (ps.randomize cks rs ss z).c.length = ps.c.length := by
  simp [ProofSystem.randomize, List.length_map, List.length_zipWith, hr]

/-- `ProofSystem::randomize` preserves the length of `d` when the
randomness list matches. -/
theorem ps_randomize_d_length (ps : ProofSystem F G₁ G₂ GT)
    (cks : CommitmentKeys G₁ G₂) (rs ss : List (Randomness F)) (z : Matrix F)
    (hs : ss.length = ps.d.length) :
    (ps.randomize cks rs ss z).d.length = ps.d.length := by
  simp [ProofSystem.randomize, List.length_map, List.length_zipWith, hs]

/-- Any sequence of re-randomization steps, each with randomness lists
matching the commitment-vector lengths, preserves verification. -/
theorem randomize_iter_aux [DecidableEq GT] (hp : IsPairing F e)
    (cks : CommitmentKeys G₁ G₂)
    (steps : List (List (Randomness F) × List (Randomness F) × Matrix F)) :
    ∀ ps : ProofSystem F G₁ G₂ GT,
      (∀ st ∈ steps, st.1.length = ps.c.length ∧ st.2.1.length = ps.d.length) →
      ps.proof.phi.WF → ps.proof.theta.WF →
      ps.equation.verify e cks ps.c ps.d ps.proof = true →
      ((steps.foldl (fun q st => q.randomize cks st.1 st.2.1 st.2.2)
          ps).equation.verify e cks
        (steps.foldl (fun q st => q.randomize cks st.1 st.2.1 st.2.2) ps).c
        (steps.foldl (fun q st => q.randomize cks st.1 st.2.1 st.2.2) ps).d
        (steps.foldl (fun q st => q.randomize cks st.1 st.2.1 st.2.2) ps).proof)
        = true := by
  induction steps with
  | nil => intro ps _ _ _ hv; simpa using hv
  | cons st rest ih =>
    intro ps hsteps hwfp hwft hv
    have hr : st.1.length = ps.c.length :=
      (hsteps st (List.mem_cons_self st rest)).1
    have hs : st.2.1.length = ps.d.length :=
      (hsteps st (List.mem_cons_self st rest)).2
    have hgate := hv
    rw [verify_true_iff] at hgate
    obtain ⟨⟨hal, hbl, hcl, hdl, hPhi, hTheta⟩, -, -, -, -⟩ := hgate
    have hphiEq := Matrix.eq_new22 ps.proof.phi hwfp hPhi
    have hthEq := Matrix.eq_new22 ps.proof.theta hwft hTheta
    have hproof : ps.proof =
        ⟨Matrix.new22 (ps.proof.phi.get 0 0) (ps.proof.phi.get 0 1)
          (ps.proof.phi.get 1 0) (ps.proof.phi.get 1 1),
         Matrix.new22 (ps.proof.theta.get 0 0) (ps.proof.theta.get 0 1)
          (ps.proof.theta.get 1 0) (ps.proof.theta.get 1 1)⟩ := by
      rw [← hphiEq, ← hthEq]
    have hc2 : (ps.randomize cks st.1 st.2.1 st.2.2).c.length = ps.c.length :=
      ps_randomize_c_length ps cks st.1 st.2.1 st.2.2 hr
    have hd2 : (ps.randomize cks st.1 st.2.1 st.2.2).d.length = ps.d.length :=
      ps_randomize_d_length ps cks st.1 st.2.1 st.2.2 hs
    have hwfp2 : (ps.randomize cks st.1 st.2.1 st.2.2).proof.phi.WF := by
      rw [ps_randomize_proof, hproof]
      exact proof_rand_phi_WF _ _ _ _ _ _ _ _ _ _
    have hwft2 : (ps.randomize cks st.1 st.2.1 st.2.2).proof.theta.WF := by
      rw [ps_randomize_proof, hproof]
      exact proof_rand_theta_WF _ _ _ _ _ _ _ _ _ _
    have hv2 := randomize_verify_aux hp cks ps st.1 st.2.1 st.2.2 hr hs
      hwfp hwft hv
    have hsteps2 : ∀ st2 ∈ rest,
        st2.1.length = (ps.randomize cks st.1 st.2.1 st.2.2).c.length ∧
        st2.2.1.length = (ps.randomize cks st.1 st.2.1 st.2.2).d.length := by
      intro st2 h2
      rw [hc2, hd2]
      exact hsteps st2 (List.mem_cons_of_mem st h2)
    simpa using ih (ps.randomize cks st.1 st.2.1 st.2.2) hsteps2 hwfp2 hwft2 hv2

/-- C2: completeness under re-randomization — for commitment keys produced
by any of the three setup modes and any proof system produced by the
top-level `setup` (which verifies, by completeness), every sequence of
re-randomization steps with matching randomness-list lengths — in
particular repeated randomization, three and more iterations included —
yields a proof system that still verifies. -/
theorem claim_C2_randomize_completeness [DecidableEq GT] (hp : IsPairing F e)
    (cks : CommitmentKeys G₁ G₂) (g1 : G₁) (g2 : G₂) (a1 a2 t1 t2 : F)
    (hcks : cks = CommitmentKeys.setup g1 g2 a1 a2 t1 t2 ∨
      cks = (CommitmentKeys.setup_ex g1 g2 a1 a2 t1 t2).1 ∨
      cks = CommitmentKeys.setup_wi g1 g2 a1 a2 t1 t2)
    (ay : List (G₁ × Variable F G₂)) (xb : List (Variable F G₁ × G₂))
    (gamma z : Matrix F) (hdim : gamma.dim = (xb.length, ay.length))
    (steps : List (List (Randomness F) × List (Randomness F) × Matrix F))
    (hsteps : ∀ st ∈ steps,
      st.1.length = xb.length ∧ st.2.1.length = ay.length) :
    ((steps.foldl (fun q st => q.randomize cks st.1 st.2.1 st.2.2)
        (setup e cks ay xb gamma z)).equation.verify e cks
      (steps.foldl (fun q st => q.randomize cks st.1 st.2.1 st.2.2)
        (setup e cks ay xb gamma z)).c
      (steps.foldl (fun q st => q.randomize cks st.1 st.2.1 st.2.2)
        (setup e cks ay xb gamma z)).d
      (steps.foldl (fun q st => q.randomize cks st.1 st.2.1 st.2.2)
        (setup e cks ay xb gamma z)).proof) = true := by
  have hc : (setup e cks ay xb gamma z).c.length = xb.length := by
    rw [setup_c]
    simp [List.length_map]
  have hd : (setup e cks ay xb gamma z).d.length = ay.length := by
    rw [setup_d]
    simp [List.length_map]
  refine randomize_iter_aux hp cks steps (setup e cks ay xb gamma z) ?_ ?_ ?_ ?_
  · intro st h
    rw [hc, hd]
    exact hsteps st h
  · rw [setup_proof]
    exact proof_new_phi_WF _ _ _ _ _
  · rw [setup_proof]
    exact proof_new_theta_WF _ _ _ _ _
  · exact setup_verify_aux hp cks ay xb gamma z hdim

/-- Witness for C2: a concrete 1×1 instance over `ZMod 5`, re-randomized
three times. -/
theorem claim_C2_witness :
    (([([⟨1, 2⟩], [⟨3, 1⟩], ⟨2, 2, [[2, 0], [1, 3]]⟩),
       ([⟨4, 0⟩], [⟨2, 2⟩], ⟨2, 2, [[1, 1], [0, 2]]⟩),
       ([⟨3, 3⟩], [⟨1, 4⟩], ⟨2, 2, [[4, 2], [3, 1]]⟩)] :
      List (List (Randomness (ZMod 5)) × List (Randomness (ZMod 5)) ×
        Matrix (ZMod 5))).foldl
      (fun q st => q.randomize exCks st.1 st.2.1 st.2.2)
      (setup zmul exCks exAy exXb ⟨1, 1, [[2]]⟩ exZ)).equation.verify zmul exCks
      (([([⟨1, 2⟩], [⟨3, 1⟩], ⟨2, 2, [[2, 0], [1, 3]]⟩),
         ([⟨4, 0⟩], [⟨2, 2⟩], ⟨2, 2, [[1, 1], [0, 2]]⟩),
         ([⟨3, 3⟩], [⟨1, 4⟩], ⟨2, 2, [[4, 2], [3, 1]]⟩)] :
        List (List (Randomness (ZMod 5)) × List (Randomness (ZMod 5)) ×
          Matrix (ZMod 5))).foldl
        (fun q st => q.randomize exCks st.1 st.2.1 st.2.2)
        (setup zmul exCks exAy exXb ⟨1, 1, [[2]]⟩ exZ)).c
      (([([⟨1, 2⟩], [⟨3, 1⟩], ⟨2, 2, [[2, 0], [1, 3]]⟩),
         ([⟨4, 0⟩], [⟨2, 2⟩], ⟨2, 2, [[1, 1], [0, 2]]⟩),
         ([⟨3, 3⟩], [⟨1, 4⟩], ⟨2, 2, [[4, 2], [3, 1]]⟩)] :
        List (List (Randomness (ZMod 5)) × List (Randomness (ZMod 5)) ×
          Matrix (ZMod 5))).foldl
        (fun q st => q.randomize exCks st.1 st.2.1 st.2.2)
        (setup zmul exCks exAy exXb ⟨1, 1, [[2]]⟩ exZ)).d
      (([([⟨1, 2⟩], [⟨3, 1⟩], ⟨2, 2, [[2, 0], [1, 3]]⟩),
         ([⟨4, 0⟩], [⟨2, 2⟩], ⟨2, 2, [[1, 1], [0, 2]]⟩),
         ([⟨3, 3⟩], [⟨1, 4⟩], ⟨2, 2, [[4, 2], [3, 1]]⟩)] :
        List (List (Randomness (ZMod 5)) × List (Randomness (ZMod 5)) ×
          Matrix (ZMod 5))).foldl
        (fun q st => q.randomize exCks st.1 st.2.1 st.2.2)
        (setup zmul exCks exAy exXb ⟨1, 1, [[2]]⟩ exZ)).proof = true :=
  claim_C2_randomize_completeness isPairing_zmul exCks (2 : ZMod 5) (3 : ZMod 5)
    (1 : ZMod 5) 2 3 4 (Or.inl rfl) exAy exXb ⟨1, 1, [[2]]⟩ exZ (by decide)
    [([⟨1, 2⟩], [⟨3, 1⟩], ⟨2, 2, [[2, 0], [1, 3]]⟩),
     ([⟨4, 0⟩], [⟨2, 2⟩], ⟨2, 2, [[1, 1], [0, 2]]⟩),
     ([⟨3, 3⟩], [⟨1, 4⟩], ⟨2, 2, [[4, 2], [3, 1]]⟩)]
    (by decide)

end Rand

end GsPpe
